import Mathlib

/-!
# Error builtins of V8 (`src/builtins/builtins-error.cc`)

A shallow embedding of the four functions of the file

* `ErrorConstructor`            (ES6 19.5.1.1, the spec's `Construct`),
* `ErrorCaptureStackTrace`      (the spec's `ForceInstallStackCapture`),
* `GetStringPropertyOrDefault`  (the spec's `GetPropertyOrDefault`),
* `ErrorPrototypeToString`      (ES6 19.5.3.4, the spec's `ToDisplayString`),

over an explicit isolate state.  A builtin is a function from the isolate state
to a result (`Except Failure _`) and the isolate state it leaves behind; the
state is kept on failure as well, since nothing is rolled back.

The functions the builtins call but which live elsewhere in the engine come in
two sorts.  Services that run arbitrary code (object creation, property reads,
text coercion, the own-property lookup, the two frame captures) are fields of
`Collaborators`.  The shape engine (`Map::CopyInsertDescriptor`,
`JSObject::MigrateToMap`) is modelled on the heap from its description.
Every call a builtin makes to one of them is appended to `Isolate.calls`.
-/

namespace V8

/-! ## Values -/

/-- Address of a heap object (a `JSReceiver`). -/
abbrev Ref := Nat

/-- Address of a map (hidden class, the spec's Shape). -/
abbrev MapRef := Nat

/-- A tagged value (`Object*`): a primitive or the address of a receiver. -/
inductive Value where
  | undefined
  | null
  | boolean (b : Bool)
  | number (n : Int)
  | string (s : String)
  | symbol (id : Nat)
  | ref (r : Ref)
  deriving DecidableEq, Repr

/-- Instance types of the receivers that matter to this file. `JS_PROXY_TYPE`
is a `JSReceiver` that is not a `JSObject`. -/
inductive InstanceType where
  | JS_OBJECT_TYPE
  | JS_FUNCTION_TYPE
  | JS_GLOBAL_OBJECT_TYPE
  | JS_GLOBAL_PROXY_TYPE
  | JS_PROXY_TYPE
  deriving DecidableEq, Repr

/-- The attribute bits of a property (`PropertyAttributes`); `NONE` is all false. -/
structure PropertyAttributes where
  READ_ONLY : Bool
  DONT_ENUM_bit : Bool
  DONT_DELETE : Bool
  deriving DecidableEq, Repr

/-- The constant `DONT_ENUM`: only the don't-enumerate bit is set. -/
def DONT_ENUM : PropertyAttributes :=
  { READ_ONLY := false, DONT_ENUM_bit := true, DONT_DELETE := false }

/-- A property is writable when `READ_ONLY` is clear. -/
def PropertyAttributes.writable (a : PropertyAttributes) : Bool := !a.READ_ONLY

/-- A property is enumerable when `DONT_ENUM` is clear. -/
def PropertyAttributes.enumerable (a : PropertyAttributes) : Bool := !a.DONT_ENUM_bit

/-- A property is configurable when `DONT_DELETE` is clear. -/
def PropertyAttributes.configurable (a : PropertyAttributes) : Bool := !a.DONT_DELETE

/-- An `AccessorInfo`: a native accessor with a getter and an optional setter. -/
structure AccessorInfo where
  name : String
  getter : String
  setter : Option String
  property_attributes : PropertyAttributes
  deriving DecidableEq, Repr

/-- Kind of an entry of a map's descriptor array. -/
inductive DescriptorKind where
  | DATA
  | ACCESSOR_CONSTANT (info : AccessorInfo)
  deriving DecidableEq, Repr

/-- One entry of a map's descriptor array: key, kind and attributes. This is
also the key of a transition. -/
structure Descriptor where
  key : String
  kind : DescriptorKind
  attributes : PropertyAttributes
  deriving DecidableEq, Repr

/-- The `PropertyDescriptor` filled in by `GetOwnPropertyDescriptor`, as far as
the builtins read it. -/
structure PropertyDescriptor where
  enumerable : Bool
  configurable : Bool
  writable : Bool
  deriving DecidableEq, Repr

/-- One captured call frame. -/
structure StackFrame where
  function : Value
  position : Nat
  deriving DecidableEq, Repr

/-! ## Heap -/

/-- A map (the spec's Shape): the ordered descriptors, the back pointer to the
parent, the transition table, and the bits this file reads. -/
structure Map where
  instance_type : InstanceType
  descriptors : List Descriptor
  back_pointer : Option MapRef
  transitions : List (Descriptor × MapRef)
  has_hidden_prototype : Bool
  prototype : Value

/-- The two stack representations attached to an object. -/
structure StackTraceState where
  detailed : Option (List StackFrame)
  simple : Option String
  deriving DecidableEq, Repr

/-- An object: its map, its property storage (one slot per descriptor of the
map, in order), the extensible flag and the stack-trace state. -/
structure JSObject where
  map : MapRef
  properties : List Value
  extensible : Bool
  stack_trace : StackTraceState
  deriving DecidableEq, Repr

/-- The heap: objects and maps by address; `next_map` is the first address no
map has been allocated at. -/
structure Heap where
  objects : Ref → JSObject
  maps : MapRef → Map
  next_map : MapRef

/-- The map of an object. -/
def Heap.mapOf (h : Heap) (object : Ref) : Map := h.maps (h.objects object).map

/-- `IsJSReceiver`: every heap object of this model is a receiver. -/
def Value.IsJSReceiver (v : Value) : Bool :=
  match v with
  | .ref _ => true
  | _ => false

/-- `Handle<JSObject>::cast` after `IsJSObject()`: the address when the value is
a receiver other than a `JSProxy`. -/
def JSObject.cast (h : Heap) (v : Value) : Option Ref :=
  match v with
  | .ref r => if (h.mapOf r).instance_type = .JS_PROXY_TYPE then none else some r
  | _ => none

/-- `Object::IsJSGlobalProxy` on an object. -/
def Heap.IsJSGlobalProxy (h : Heap) (object : Ref) : Bool :=
  decide ((h.mapOf object).instance_type = .JS_GLOBAL_PROXY_TYPE)

/-- `JSGlobalObject::cast`: the address when the value is a global object. -/
def JSGlobalObject.cast (h : Heap) (v : Value) : Option Ref :=
  match v with
  | .ref r => if (h.mapOf r).instance_type = .JS_GLOBAL_OBJECT_TYPE then some r else none
  | _ => none

/-- Modelled from the spec: `JSObject::IsExtensible`, which is not part of the
excerpt, reads the object's extensible flag. -/
def JSObject.IsExtensible (h : Heap) (object : Ref) : Bool := (h.objects object).extensible

/-- Store an object record at an address. -/
def Heap.setObject (h : Heap) (object : Ref) (o : JSObject) : Heap :=
  { h with objects := Function.update h.objects object o }

/-- Store frames as the detailed stack trace of an object. -/
def Heap.setDetailed (h : Heap) (object : Ref) (frames : List StackFrame) : Heap :=
  let o := h.objects object
  h.setObject object { o with stack_trace := { o.stack_trace with detailed := some frames } }

/-- Store a text as the simple stack trace of an object. -/
def Heap.setSimple (h : Heap) (object : Ref) (text : String) : Heap :=
  let o := h.objects object
  h.setObject object { o with stack_trace := { o.stack_trace with simple := some text } }

/-! ## Shape engine -/

/-- Modelled from the spec: `Map::CopyInsertDescriptor` with `INSERT_TRANSITION`
(the spec's `InsertDescriptor`), which is not part of the excerpt. The child
memoized in the transition table of `map` for an equal descriptor is reused;
otherwise a child is allocated whose descriptors are those of `map` plus the
new one, and the transition is recorded in `map`. -/
def Map.CopyInsertDescriptor (h : Heap) (map : MapRef) (d : Descriptor) : MapRef × Heap :=
  match (h.maps map).transitions.lookup d with
  | some child => (child, h)
  | none =>
    let parent := h.maps map
    let child : Map :=
      { parent with
        descriptors := parent.descriptors ++ [d]
        back_pointer := some map
        transitions := [] }
    let parent' : Map := { parent with transitions := (d, h.next_map) :: parent.transitions }
    (h.next_map,
      { h with
        maps := Function.update (Function.update h.maps map parent') h.next_map child
        next_map := h.next_map + 1 })

/-- Modelled from the spec: `JSObject::MigrateToMap` (the spec's
`MigrateObject`), which is not part of the excerpt. The storage is laid out
again for the new map, the values it holds staying where they are and the new
slots holding undefined, and the object is pointed at the new map. -/
def JSObject.MigrateToMap (h : Heap) (object : Ref) (new_map : MapRef) : Heap :=
  let o := h.objects object
  let size := (h.maps new_map).descriptors.length
  h.setObject object
    { o with
      map := new_map
      properties := o.properties ++ List.replicate (size - o.properties.length) Value.undefined }

/-- The position of the last descriptor with the given key, counted from the
front. -/
def lastIndexOfKey (ds : List Descriptor) (key : String) : Option Nat :=
  match ds with
  | [] => none
  | d :: rest =>
    match lastIndexOfKey rest key with
    | some i => some (i + 1)
    | none => if d.key = key then some 0 else none

/-- The own property of an object at a key, read off its map and storage: the
latest descriptor with that key and the value in its slot. -/
def Heap.GetOwnProperty (h : Heap) (object : Ref) (key : String) : Option (Descriptor × Value) :=
  let ds := (h.mapOf object).descriptors
  match lastIndexOfKey ds key with
  | some i => ds[i]?.map fun d => (d, (h.objects object).properties.getD i Value.undefined)
  | none => none

/-- Modelled from the spec: the heap effect of
`JSObject::SetOwnPropertyIgnoreAttributes`, which is not part of the excerpt: a
data descriptor with the given attributes is inserted into the object's map,
the object is migrated, and the value is written to the new slot. -/
def Heap.SetOwnPropertyIgnoreAttributes (h : Heap) (object : Ref) (name : String)
    (value : Value) (attributes : PropertyAttributes) : Heap :=
  let d : Descriptor := { key := name, kind := .DATA, attributes := attributes }
  let r := Map.CopyInsertDescriptor h (h.objects object).map d
  let h1 := JSObject.MigrateToMap r.2 object r.1
  let o := h1.objects object
  h1.setObject object
    { o with properties := o.properties.set ((h1.maps r.1).descriptors.length - 1) value }

/-- The invariant of the transition tables: the child recorded for a
descriptor has the descriptors of the parent plus that descriptor. -/
def Heap.TransitionsSound (h : Heap) : Prop :=
  ∀ (m : MapRef) (d : Descriptor) (child : MapRef),
    (h.maps m).transitions.lookup d = some child →
    (h.maps child).descriptors = (h.maps m).descriptors ++ [d]

/-! ## Isolate, failures and collaborators -/

/-- The message templates the builtins and the string builder throw with. -/
inductive MessageTemplate where
  | kInvalidArgument
  | kDefineDisallowed
  | kIncompatibleMethodReceiver
  | kInvalidStringLength
  deriving DecidableEq, Repr

/-- How a call fails: with an error the engine code modelled here creates at
that point, with the exception a collaborator left pending, or on a checked
cast. -/
inductive Failure where
  | NewTypeError (template : MessageTemplate) (args : List Value)
  | NewRangeError (template : MessageTemplate)
  | Pending (exception : Value)
  | CheckFailed (what : String)
  deriving DecidableEq, Repr

/-- A call made by a builtin to the rest of the engine. -/
inductive Call where
  | New (target : Ref) (new_target : Ref)
  | ToString (input : Value)
  | SetOwnPropertyIgnoreAttributes (object : Ref) (name : String) (value : Value)
      (attributes : PropertyAttributes)
  | CaptureAndSetDetailedStackTrace (object : Ref)
  | CaptureAndSetSimpleStackTrace (object : Ref) (caller : Option Value)
  | CopyInsertDescriptor (map : MapRef) (d : Descriptor)
  | MigrateToMap (object : Ref) (new_map : MapRef)
  | GetProperty (recv : Ref) (key : String)
  deriving DecidableEq, Repr

/-- The isolate state: the heap, whether the bootstrapper is active, and the
calls the builtins have made so far, oldest first. -/
structure Isolate where
  heap : Heap
  bootstrapper_active : Bool
  calls : List Call

/-- Append a call to the record. -/
def Isolate.record (isolate : Isolate) (c : Call) : Isolate :=
  { isolate with calls := isolate.calls ++ [c] }

/-- The engine services the builtins rely on and whose code is not part of the
excerpt. Those that may run arbitrary code return the heap they leave behind,
also when they throw; the thrown value is the pending exception.

* `New`: `JSObject::New(target, new_target)`, the object creation service;
* `ConvertToString`: the slow path of `Object::ToString` for a value that is
  not a string;
* `GetProperty`: `JSObject::GetProperty(recv, key)`;
* `GetOwnPropertyDescriptor`: `JSReceiver::GetOwnPropertyDescriptor`, a
  `Maybe<bool>` (`none` is `Nothing`) and the descriptor it filled in; the
  lookup only reads the heap;
* `CaptureDetailed`, `CaptureSimple`: the frames, respectively the formatted
  text, the two captures record for an object, or the exception they throw;
* `kMaxLength`: `String::kMaxLength`, the length in UTF-16 code units of the
  longest string that can be built. -/
structure Collaborators where
  New : Heap → Ref → Ref → Except Value Ref × Heap
  ConvertToString : Heap → Value → Except Value String × Heap
  GetProperty : Heap → Ref → String → Except Value Value × Heap
  GetOwnPropertyDescriptor : Heap → Ref → String → Option Bool × PropertyDescriptor
  CaptureDetailed : Heap → Ref → Except Value (List StackFrame)
  CaptureSimple : Heap → Ref → Option Value → Except Value String
  kMaxLength : Nat

/-- The arguments of a builtin call: target, new target, and the values passed,
the receiver first. -/
structure BuiltinArguments where
  target : Ref
  new_target : Value
  values : List Value

/-- `args.receiver()`. -/
def BuiltinArguments.receiver (args : BuiltinArguments) : Value :=
  args.values.getD 0 Value.undefined

/-- `args.atOrUndefined(isolate, index)`. -/
def BuiltinArguments.atOrUndefined (args : BuiltinArguments) (index : Nat) : Value :=
  args.values.getD index Value.undefined

/-- Result of a builtin or of a call it makes: the outcome and the isolate
state afterwards. -/
abbrev Run (α : Type) := Except Failure α × Isolate

/-! ## The calls of the builtins -/

/-- The call `JSObject::New(target, new_target)`. -/
def JSObject.New (c : Collaborators) (target new_target : Ref) (isolate : Isolate) : Run Ref :=
  let isolate := isolate.record (.New target new_target)
  match c.New isolate.heap target new_target with
  | (.ok err, h) => (.ok err, { isolate with heap := h })
  | (.error e, h) => (.error (.Pending e), { isolate with heap := h })

/-- The call `Object::ToString(isolate, input)`: a string is returned as it is,
any other value is converted by the collaborator. -/
def Object.ToString (c : Collaborators) (input : Value) (isolate : Isolate) : Run String :=
  let isolate := isolate.record (.ToString input)
  match input with
  | .string s => (.ok s, isolate)
  | _ =>
    match c.ConvertToString isolate.heap input with
    | (.ok s, h) => (.ok s, { isolate with heap := h })
    | (.error e, h) => (.error (.Pending e), { isolate with heap := h })

/-- The call `JSObject::GetProperty(recv, key)`. -/
def JSObject.GetProperty (c : Collaborators) (recv : Ref) (key : String) (isolate : Isolate) :
    Run Value :=
  let isolate := isolate.record (.GetProperty recv key)
  match c.GetProperty isolate.heap recv key with
  | (.ok v, h) => (.ok v, { isolate with heap := h })
  | (.error e, h) => (.error (.Pending e), { isolate with heap := h })

/-- The call `JSObject::SetOwnPropertyIgnoreAttributes(object, name, value,
attributes)`. Defining the property this way does not fail: line 41 has it
as "Perform ! DefinePropertyOrThrow". -/
def JSObject.SetOwnPropertyIgnoreAttributes (object : Ref) (name : String) (value : Value)
    (attributes : PropertyAttributes) (isolate : Isolate) : Run Unit :=
  let isolate := isolate.record (.SetOwnPropertyIgnoreAttributes object name value attributes)
  (.ok (), { isolate with
    heap := isolate.heap.SetOwnPropertyIgnoreAttributes object name value attributes })

/-- Modelled from the spec: `Isolate::CaptureAndSetDetailedStackTrace`, which is
not part of the excerpt: the frames captured are stored as the detailed stack
trace of the object; a failure leaves the heap as it is. -/
def Isolate.CaptureAndSetDetailedStackTrace (c : Collaborators) (object : Ref)
    (isolate : Isolate) : Run Unit :=
  let isolate := isolate.record (.CaptureAndSetDetailedStackTrace object)
  match c.CaptureDetailed isolate.heap object with
  | .ok frames => (.ok (), { isolate with heap := isolate.heap.setDetailed object frames })
  | .error e => (.error (.Pending e), isolate)

/-- Modelled from the spec: `Isolate::CaptureAndSetSimpleStackTrace`, which is
not part of the excerpt: the formatted text is stored as the simple stack trace
of the object; a failure leaves the heap as it is. -/
def Isolate.CaptureAndSetSimpleStackTrace (c : Collaborators) (object : Ref)
    (caller : Option Value) (isolate : Isolate) : Run Unit :=
  let isolate := isolate.record (.CaptureAndSetSimpleStackTrace object caller)
  match c.CaptureSimple isolate.heap object caller with
  | .ok text => (.ok (), { isolate with heap := isolate.heap.setSimple object text })
  | .error e => (.error (.Pending e), isolate)

/-- `String::length()`: the length of a string, counted in UTF-16 code units,
so a character outside the basic plane counts twice. -/
def utf16Length (s : String) : Nat :=
  (s.data.map fun ch => if ch.toNat < 65536 then 1 else 2).sum

/-- The string builder of `src/string-builder.h`, which is not part of the
excerpt: the text accumulated so far. Its `Finish` can fail, line 198 returns
its result through `RETURN_RESULT_OR_FAILURE`; it does so when the text is
longer than a string can be, and that length is a parameter here. -/
structure IncrementalStringBuilder where
  accumulator : String

/-- `AppendString` and `AppendCString`. -/
def IncrementalStringBuilder.AppendString (b : IncrementalStringBuilder) (s : String) :
    IncrementalStringBuilder :=
  { accumulator := b.accumulator ++ s }

/-- `Finish`: the accumulated text, or the invalid-string-length range error
when its length in UTF-16 code units is more than `String::kMaxLength`. -/
def IncrementalStringBuilder.Finish (c : Collaborators) (b : IncrementalStringBuilder) :
    Except Failure String :=
  if utf16Length b.accumulator > c.kMaxLength then
    .error (.NewRangeError .kInvalidStringLength)
  else .ok b.accumulator

/-! ## `ErrorConstructor` -/

/-- Lines 20-29: the new target is `args.new_target()` when that is a
receiver and the target otherwise. -/
def effectiveNewTarget (args : BuiltinArguments) : Ref :=
  match args.new_target with
  | .ref r => r
  | _ => args.target

/-- Lines 37-53, step 3: a message that is not undefined is converted to a
string and defined as the property "message" with the attributes `DONT_ENUM`. -/
def defineMessage (c : Collaborators) (err : Ref) (msg : Value) (isolate : Isolate) : Run Unit :=
  if msg = Value.undefined then (.ok (), isolate)
  else
    match Object.ToString c msg isolate with
    | (.error e, isolate) => (.error e, isolate)
    | (.ok msg_string, isolate) =>
      JSObject.SetOwnPropertyIgnoreAttributes err "message" (Value.string msg_string) DONT_ENUM
        isolate

/-- Lines 55-65: unless the bootstrapper is active the detailed and then the
simple stack trace are captured; the object is returned. -/
def captureUnlessSettingUp (c : Collaborators) (err : Ref) (isolate : Isolate) : Run Value :=
  if !isolate.bootstrapper_active then
    match Isolate.CaptureAndSetDetailedStackTrace c err isolate with
    | (.error e, isolate) => (.error e, isolate)
    | (.ok (), isolate) =>
      match Isolate.CaptureAndSetSimpleStackTrace c err none isolate with
      | (.error e, isolate) => (.error e, isolate)
      | (.ok (), isolate) => (.ok (Value.ref err), isolate)
  else (.ok (Value.ref err), isolate)

/-- `BUILTIN(ErrorConstructor)`, ES6 section 19.5.1.1 Error ( message ). -/
def ErrorConstructor (c : Collaborators) (args : BuiltinArguments) (isolate : Isolate) :
    Run Value :=
  -- 1. If NewTarget is undefined, let newTarget be the active function object.
  let target := args.target
  let new_target := effectiveNewTarget args
  -- 2. Let O be ? OrdinaryCreateFromConstructor(newTarget, ...).
  match JSObject.New c target new_target isolate with
  | (.error e, isolate) => (.error e, isolate)
  | (.ok err, isolate) =>
    -- 3. If message is not undefined, define it as "message".
    let msg := args.atOrUndefined 1
    match defineMessage c err msg isolate with
    | (.error e, isolate) => (.error e, isolate)
    | (.ok (), isolate) =>
      -- Capture the stack trace unless we're setting up.
      captureUnlessSettingUp c err isolate

/-! ## `ErrorCaptureStackTrace` -/

/-- `Accessors::ErrorStackInfo(isolate, attribs)`: the native accessor of the
"stack" property. -/
def Accessors.ErrorStackInfo (attribs : PropertyAttributes) : AccessorInfo :=
  { name := "stack", getter := "ErrorStackGetter", setter := some "ErrorStackSetter",
    property_attributes := attribs }

/-- `AccessorConstantDescriptor d(name, info, attribs)`. -/
def AccessorConstantDescriptor (name : String) (info : AccessorInfo)
    (attribs : PropertyAttributes) : Descriptor :=
  { key := name, kind := .ACCESSOR_CONSTANT info, attributes := attribs }

/-- The descriptor lines 116-121 build: the accessor constant of the "stack"
property with the attributes `DONT_ENUM`. -/
def stackAccessorDescriptor : Descriptor :=
  AccessorConstantDescriptor (Accessors.ErrorStackInfo DONT_ENUM).name
    (Accessors.ErrorStackInfo DONT_ENUM) DONT_ENUM

/-- Lines 82-89, "Handle writes to the global object": a global proxy whose
map has a hidden prototype is replaced by that prototype, cast to a global
object; `none` when the cast is not to a global object. -/
def globalObjectRedirect (h : Heap) (object : Ref) : Option Ref :=
  if h.IsJSGlobalProxy object then
    let map := h.mapOf object
    if map.has_hidden_prototype then JSGlobalObject.cast h map.prototype
    else some object
  else some object

/-- Lines 91-105, "Check if the stack property is read-only": the value of
`is_extensible` when line 107 tests it. -/
def stackIsExtensible (c : Collaborators) (h : Heap) (object : Ref) : Bool :=
  let is_extensible := if !JSObject.IsExtensible h object then false else true
  let lookup := c.GetOwnPropertyDescriptor h object "stack"
  let owned := lookup.1
  let desc := lookup.2
  if owned.getD false then
    if !desc.configurable || !desc.writable then false else is_extensible
  else is_extensible

/-- Lines 113-124, "Add stack accessors to the given object". -/
def addStackAccessors (object : Ref) (isolate : Isolate) : Isolate :=
  let map := (isolate.heap.objects object).map
  let d := stackAccessorDescriptor
  let isolate := isolate.record (.CopyInsertDescriptor map d)
  let r := Map.CopyInsertDescriptor isolate.heap map d
  let new_map := r.1
  let isolate := { isolate with heap := r.2 }
  let isolate := isolate.record (.MigrateToMap object new_map)
  { isolate with heap := JSObject.MigrateToMap isolate.heap object new_map }

/-- `BUILTIN(ErrorCaptureStackTrace)`, the spec's `ForceInstallStackCapture`. -/
def ErrorCaptureStackTrace (c : Collaborators) (args : BuiltinArguments) (isolate : Isolate) :
    Run Value :=
  let object_obj := args.atOrUndefined 1
  match JSObject.cast isolate.heap object_obj with
  | none => (.error (.NewTypeError .kInvalidArgument [object_obj]), isolate)
  | some object =>
    let caller := args.atOrUndefined 2
    -- Handle writes to the global object.
    match globalObjectRedirect isolate.heap object with
    | none => (.error (.CheckFailed "JSGlobalObject::cast"), isolate)
    | some object =>
      -- Check if the stack property is read-only.
      if !stackIsExtensible c isolate.heap object then
        (.error (.NewTypeError .kDefineDisallowed [.string "stack", .ref object]), isolate)
      else
        -- Add stack accessors to the given object.
        let isolate := addStackAccessors object isolate
        -- Collect the stack trace.
        match Isolate.CaptureAndSetDetailedStackTrace c object isolate with
        | (.error e, isolate) => (.error e, isolate)
        | (.ok (), isolate) =>
          match Isolate.CaptureAndSetSimpleStackTrace c object (some caller) isolate with
          | (.error e, isolate) => (.error e, isolate)
          | (.ok (), isolate) => (.ok Value.undefined, isolate)

/-! ## `GetStringPropertyOrDefault` and `ErrorPrototypeToString` -/

/-- `GetStringPropertyOrDefault(isolate, recv, key, default_str)`. -/
def GetStringPropertyOrDefault (c : Collaborators) (recv : Ref) (key : String)
    (default_str : String) (isolate : Isolate) : Run String :=
  match JSObject.GetProperty c recv key isolate with
  | (.error e, isolate) => (.error e, isolate)
  | (.ok obj, isolate) =>
    if obj = Value.undefined then (.ok default_str, isolate)
    else
      match Object.ToString c obj isolate with
      | (.error e, isolate) => (.error e, isolate)
      | (.ok str, isolate) => (.ok str, isolate)

/-- `BUILTIN(ErrorPrototypeToString)`, ES6 section 19.5.3.4
Error.prototype.toString ( ). The result is the text of the string returned. -/
def ErrorPrototypeToString (c : Collaborators) (args : BuiltinArguments) (isolate : Isolate) :
    Run String :=
  -- 2. If Type(O) is not Object, throw a TypeError exception.
  match args.receiver with
  | .ref receiver =>
    -- 3., 4. name, with the default "Error".
    match GetStringPropertyOrDefault c receiver "name" "Error" isolate with
    | (.error e, isolate) => (.error e, isolate)
    | (.ok name, isolate) =>
      -- 5., 6. msg, with the empty string as the default.
      match GetStringPropertyOrDefault c receiver "message" "" isolate with
      | (.error e, isolate) => (.error e, isolate)
      | (.ok msg, isolate) =>
        -- 7. If name is the empty String, return msg.
        -- 8. If msg is the empty String, return name.
        if utf16Length name = 0 then (.ok msg, isolate)
        else if utf16Length msg = 0 then (.ok name, isolate)
        else
          -- 9. name, ": " and msg concatenated.
          let builder : IncrementalStringBuilder := { accumulator := "" }
          let builder := builder.AppendString name
          let builder := builder.AppendString ": "
          let builder := builder.AppendString msg
          (builder.Finish c, isolate)
  | receiver =>
    (.error (.NewTypeError .kIncompatibleMethodReceiver
      [.string "Error.prototype.toString", receiver]), isolate)

/-! ## Concrete states -/

/-- A text of `k` characters of the basic plane, so of `k` code units. -/
def longText (k : Nat) : String := String.mk (List.replicate k 'x')

/-- An ordinary map without descriptors. -/
def plainMap : Map :=
  { instance_type := .JS_OBJECT_TYPE, descriptors := [], back_pointer := none,
    transitions := [], has_hidden_prototype := false, prototype := Value.null }

/-- An extensible object on map 0 without properties or stack traces. -/
def plainObject : JSObject :=
  { map := 0, properties := [], extensible := true,
    stack_trace := { detailed := none, simple := none } }

/-- A heap whose objects are all plain and share the one map 0. -/
def plainHeap : Heap :=
  { objects := fun _ => plainObject, maps := fun _ => plainMap, next_map := 1 }

/-- An isolate outside bootstrap over the plain heap, before any call. -/
def plainIsolate : Isolate :=
  { heap := plainHeap, bootstrapper_active := false, calls := [] }

/-- Collaborators that leave the heap alone: reads of "name" and "message"
yield the two given values and every other read undefined, creation yields
object 7, conversion of a non-string yields "converted", no own property is
found, the captures record one frame and the text "at f", and strings hold up
to `(1 << 28) - 16` code units. -/
def readingCollaborators (name message : Value) : Collaborators :=
  { New := fun h _ _ => (.ok 7, h)
    ConvertToString := fun h _ => (.ok "converted", h)
    GetProperty := fun h _ key =>
      (.ok (if key = "name" then name else if key = "message" then message
        else Value.undefined), h)
    GetOwnPropertyDescriptor := fun _ _ _ =>
      (some false, { enumerable := false, configurable := false, writable := false })
    CaptureDetailed := fun _ _ => .ok [{ function := Value.undefined, position := 0 }]
    CaptureSimple := fun _ _ _ => .ok "at f"
    kMaxLength := 268435440 }

/-- A call whose receiver and first argument are object 3. -/
def plainArguments : BuiltinArguments :=
  { target := 1, new_target := Value.undefined, values := [Value.ref 3, Value.ref 3] }

/-- The plain isolate with every object made non-extensible. -/
def frozenIsolate : Isolate :=
  { plainIsolate with
    heap := { plainHeap with objects := fun _ => { plainObject with extensible := false } } }

/-- The given collaborators, except that the lookup of an own property finds
one that is writable but not configurable. -/
def lockedLookup (c : Collaborators) : Collaborators :=
  { c with
    GetOwnPropertyDescriptor := fun _ _ _ =>
      (some true, { enumerable := false, configurable := false, writable := true }) }

/-- The plain isolate with every object a global proxy whose map has no
hidden prototype (a detached global proxy). -/
def detachedProxyIsolate : Isolate :=
  { plainIsolate with
    heap := { plainHeap with
      maps := fun _ => { plainMap with instance_type := .JS_GLOBAL_PROXY_TYPE } } }

/-- An isolate in which object 3 is a global proxy on map 0, whose hidden
prototype is the global object 4; every other object is a global object on
map 1. -/
def globalProxyIsolate : Isolate :=
  { plainIsolate with
    heap :=
      { objects := fun r => if r = 3 then plainObject else { plainObject with map := 1 }
        maps := fun m =>
          if m = 0 then
            { plainMap with
              instance_type := .JS_GLOBAL_PROXY_TYPE
              has_hidden_prototype := true
              prototype := Value.ref 4 }
          else { plainMap with instance_type := .JS_GLOBAL_OBJECT_TYPE }
        next_map := 2 } }

/-- The given collaborators, except that the detailed capture throws. -/
def throwingDetailed (c : Collaborators) : Collaborators :=
  { c with CaptureDetailed := fun _ _ => .error (Value.string "thrown by the detailed capture") }

/-- A construct call of the function 1 without a distinct new target and with
the given message. -/
def errorArguments (message : Value) : BuiltinArguments :=
  { target := 1, new_target := Value.undefined, values := [Value.undefined, message] }

/-- A call that passes the receiver only. -/
def noArguments : BuiltinArguments :=
  { target := 1, new_target := Value.undefined, values := [Value.undefined] }

/-- The given collaborators, except that object creation throws. -/
def throwingNew (c : Collaborators) : Collaborators :=
  { c with New := fun h _ _ => (.error (Value.string "thrown by the creation"), h) }

/-- The given collaborators, except that the read of the given key throws. -/
def throwingRead (key : String) (c : Collaborators) : Collaborators :=
  { c with
    GetProperty := fun h recv k =>
      if k = key then (.error (Value.string "thrown by the read"), h) else c.GetProperty h recv k }

/-- A construct call of the function 1 with the distinct new target 2 and
without a message. -/
def subclassArguments : BuiltinArguments :=
  { target := 1, new_target := Value.ref 2, values := [Value.undefined] }

/-- The given collaborators, except that the lookup of an own property yields
no result (`Nothing`) and a descriptor with every flag false. -/
def failingLookup (c : Collaborators) : Collaborators :=
  { c with
    GetOwnPropertyDescriptor := fun _ _ _ =>
      (none, { enumerable := false, configurable := false, writable := false }) }

/-- A call whose receiver and first argument are the given object. -/
def argumentsOn (object : Ref) : BuiltinArguments :=
  { target := 1, new_target := Value.undefined, values := [Value.ref object, Value.ref object] }

/-- Modelled from the spec: what the lookup of an own property reports when it
reads the shape: the property is found when the map has a descriptor for the
key, and it is enumerable, configurable and writable as the attributes of
that descriptor say. -/
def Heap.ownPropertyDescriptor (h : Heap) (object : Ref) (key : String) :
    Option Bool × PropertyDescriptor :=
  match h.GetOwnProperty object key with
  | some (d, _) =>
    (some true,
      { enumerable := d.attributes.enumerable, configurable := d.attributes.configurable,
        writable := d.attributes.writable })
  | none => (some false, { enumerable := false, configurable := false, writable := false })

/-- The given collaborators, except that the lookup of an own property reads
the shape. -/
def shapeLookup (c : Collaborators) : Collaborators :=
  { c with GetOwnPropertyDescriptor := fun h object key => h.ownPropertyDescriptor object key }

/-- The given collaborators, except that strings hold up to `k` code units. -/
def limitedTo (k : Nat) (c : Collaborators) : Collaborators :=
  { c with kMaxLength := k }

/-! ## Lemmas -/

theorem String.length_eq_zero_iff_empty (s : String) : s.length = 0 ↔ s = "" := by
  constructor
  · intro h
    have hd : s.data = [] := List.length_eq_zero.mp h
    exact String.ext hd
  · rintro rfl
    rfl

theorem longText_length (k : Nat) : (longText k).length = k := by
  simp only [longText, String.length, List.length_replicate]

theorem longText_ne_empty (k : Nat) (hk : 0 < k) : longText k ≠ "" := by
  intro h
  have := longText_length k
  rw [h] at this
  have h0 : ("" : String).length = 0 := rfl
  omega

theorem utf16Length_append (a b : String) :
    utf16Length (a ++ b) = utf16Length a + utf16Length b := by
  simp [utf16Length, String.data_append]

theorem utf16Length_eq_zero_iff_empty (s : String) : utf16Length s = 0 ↔ s = "" := by
  constructor
  · intro h
    have hd : s.data = [] := by
      cases hs : s.data with
      | nil => rfl
      | cons ch rest =>
        simp only [utf16Length, hs, List.map_cons, List.sum_cons] at h
        split at h <;> omega
    exact String.ext hd
  · rintro rfl
    rfl

theorem utf16Length_longText (k : Nat) : utf16Length (longText k) = k := by
  have hx : ('x' : Char).toNat < 65536 := by decide
  simp only [utf16Length, longText, List.map_replicate, if_pos hx, List.sum_replicate,
    smul_eq_mul, mul_one]

/-- What `Finish` yields after the three appends of step 9. -/
theorem Finish_of_three (c : Collaborators) (n m : String) :
    IncrementalStringBuilder.Finish c
      ((((({ accumulator := "" } : IncrementalStringBuilder).AppendString n).AppendString
        ": ").AppendString m)) =
      if utf16Length n + 2 + utf16Length m ≤ c.kMaxLength then .ok (n ++ ": " ++ m)
      else .error (.NewRangeError .kInvalidStringLength) := by
  have h2 : utf16Length ": " = 2 := by decide
  have he : ("" : String) ++ n = n := String.empty_append n
  simp only [IncrementalStringBuilder.Finish, IncrementalStringBuilder.AppendString, he,
    utf16Length_append, h2]
  by_cases h : utf16Length n + 2 + utf16Length m ≤ c.kMaxLength
  · rw [if_neg (by omega), if_pos h]
  · rw [if_pos (by omega), if_neg h]

/-- The result of `ErrorPrototypeToString` from the results of its two lookups. -/
theorem ErrorPrototypeToString_of_lookups (c : Collaborators) (args : BuiltinArguments)
    (isolate s1 s2 : Isolate) (receiver : Ref) (n m : String)
    (hrecv : args.receiver = Value.ref receiver)
    (hname : GetStringPropertyOrDefault c receiver "name" "Error" isolate = (.ok n, s1))
    (hmsg : GetStringPropertyOrDefault c receiver "message" "" s1 = (.ok m, s2)) :
    ErrorPrototypeToString c args isolate =
      (if n = "" then .ok m
        else if m = "" then .ok n
        else if utf16Length n + 2 + utf16Length m ≤ c.kMaxLength then .ok (n ++ ": " ++ m)
        else .error (.NewRangeError .kInvalidStringLength), s2) := by
  simp only [ErrorPrototypeToString, hrecv, hname, hmsg, Finish_of_three,
    utf16Length_eq_zero_iff_empty]
  by_cases hn : n = ""
  · simp only [hn, if_true]
  · by_cases hm : m = ""
    · simp only [hn, hm, if_true, if_false]
    · simp only [hn, hm, if_false]

/-- A read that yields undefined gives the default, and nothing is coerced. -/
theorem GetStringPropertyOrDefault_of_undefined (c : Collaborators) (recv : Ref)
    (key default_str : String) (isolate : Isolate) (h1 : Heap)
    (hread : c.GetProperty isolate.heap recv key = (.ok Value.undefined, h1)) :
    GetStringPropertyOrDefault c recv key default_str isolate =
      (.ok default_str, { isolate.record (.GetProperty recv key) with heap := h1 }) := by
  have hh : (isolate.record (.GetProperty recv key)).heap = isolate.heap := rfl
  simp only [GetStringPropertyOrDefault, JSObject.GetProperty, hh, hread, if_true]

/-- A read that yields a string gives that string. -/
theorem GetStringPropertyOrDefault_of_string (c : Collaborators) (recv : Ref)
    (key default_str : String) (isolate : Isolate) (h1 : Heap) (s : String)
    (hread : c.GetProperty isolate.heap recv key = (.ok (Value.string s), h1)) :
    GetStringPropertyOrDefault c recv key default_str isolate =
      (.ok s, Isolate.record { isolate.record (.GetProperty recv key) with heap := h1 }
        (.ToString (Value.string s))) := by
  have hh : (isolate.record (.GetProperty recv key)).heap = isolate.heap := rfl
  have hne : (Value.string s = Value.undefined) = False := by simp
  simp only [GetStringPropertyOrDefault, JSObject.GetProperty, hh, hread, hne, if_false,
    Object.ToString]

/-- The guard of lines 91-105 rejects exactly a non-extensible object and an
object that owns "stack" with a descriptor that is not both configurable and
writable. -/
theorem stackIsExtensible_eq_false_iff (c : Collaborators) (h : Heap) (T : Ref) :
    stackIsExtensible c h T = false ↔
      (JSObject.IsExtensible h T = false ∨
        ∃ desc, c.GetOwnPropertyDescriptor h T "stack" = (some true, desc) ∧
          ¬ (desc.configurable = true ∧ desc.writable = true)) := by
  unfold stackIsExtensible
  rcases hl : c.GetOwnPropertyDescriptor h T "stack" with ⟨owned, desc⟩
  cases hext : JSObject.IsExtensible h T <;> cases owned with
  | none => simp
  | some b => cases b <;> cases hc : desc.configurable <;> cases hw : desc.writable <;> simp [hc, hw]

/-- A call whose target is rejected by the guard. -/
theorem ErrorCaptureStackTrace_rejected (c : Collaborators) (args : BuiltinArguments)
    (isolate : Isolate) (object T : Ref)
    (hobj : JSObject.cast isolate.heap (args.atOrUndefined 1) = some object)
    (hT : globalObjectRedirect isolate.heap object = some T)
    (hg : stackIsExtensible c isolate.heap T = false) :
    ErrorCaptureStackTrace c args isolate =
      (.error (.NewTypeError .kDefineDisallowed [Value.string "stack", Value.ref T]),
        isolate) := by
  simp [ErrorCaptureStackTrace, hobj, hT, hg]

/-- A call whose target passes the guard: the accessor is added, then the two
captures are run, the second only after the first succeeded. -/
theorem ErrorCaptureStackTrace_passed (c : Collaborators) (args : BuiltinArguments)
    (isolate : Isolate) (object T : Ref)
    (hobj : JSObject.cast isolate.heap (args.atOrUndefined 1) = some object)
    (hT : globalObjectRedirect isolate.heap object = some T)
    (hg : stackIsExtensible c isolate.heap T = true) :
    ErrorCaptureStackTrace c args isolate =
      match Isolate.CaptureAndSetDetailedStackTrace c T (addStackAccessors T isolate) with
      | (.error e, isolate) => (.error e, isolate)
      | (.ok (), isolate) =>
        match Isolate.CaptureAndSetSimpleStackTrace c T (some (args.atOrUndefined 2))
          isolate with
        | (.error e, isolate) => (.error e, isolate)
        | (.ok (), isolate) => (.ok Value.undefined, isolate) := by
  simp [ErrorCaptureStackTrace, hobj, hT, hg]

/-- The detailed capture succeeds or leaves a pending exception. -/
theorem CaptureAndSetDetailedStackTrace_outcome (c : Collaborators) (object : Ref)
    (isolate : Isolate) :
    (Isolate.CaptureAndSetDetailedStackTrace c object isolate).1 = .ok () ∨
      ∃ v, Isolate.CaptureAndSetDetailedStackTrace c object isolate =
        (.error (.Pending v), isolate.record (.CaptureAndSetDetailedStackTrace object)) := by
  simp only [Isolate.CaptureAndSetDetailedStackTrace]
  split
  · exact Or.inl rfl
  · exact Or.inr ⟨_, rfl⟩

/-- The simple capture succeeds or leaves a pending exception. -/
theorem CaptureAndSetSimpleStackTrace_outcome (c : Collaborators) (object : Ref)
    (caller : Option Value) (isolate : Isolate) :
    (Isolate.CaptureAndSetSimpleStackTrace c object caller isolate).1 = .ok () ∨
      ∃ v, Isolate.CaptureAndSetSimpleStackTrace c object caller isolate =
        (.error (.Pending v),
          isolate.record (.CaptureAndSetSimpleStackTrace object caller)) := by
  simp only [Isolate.CaptureAndSetSimpleStackTrace]
  split
  · exact Or.inl rfl
  · exact Or.inr ⟨_, rfl⟩

/-- A call that passes the guard returns undefined or fails with the pending
exception of a capture. -/
theorem ErrorCaptureStackTrace_passed_outcome (c : Collaborators) (args : BuiltinArguments)
    (isolate : Isolate) (object T : Ref)
    (hobj : JSObject.cast isolate.heap (args.atOrUndefined 1) = some object)
    (hT : globalObjectRedirect isolate.heap object = some T)
    (hg : stackIsExtensible c isolate.heap T = true) :
    (ErrorCaptureStackTrace c args isolate).1 = .ok Value.undefined ∨
      ∃ v, (ErrorCaptureStackTrace c args isolate).1 = .error (.Pending v) := by
  rw [ErrorCaptureStackTrace_passed c args isolate object T hobj hT hg]
  rcases hd : Isolate.CaptureAndSetDetailedStackTrace c T (addStackAccessors T isolate) with
    ⟨r1, i1⟩
  rcases CaptureAndSetDetailedStackTrace_outcome c T (addStackAccessors T isolate) with h1 | ⟨v, h1⟩
  · rw [hd] at h1
    simp only at h1
    subst h1
    simp only
    rcases hs : Isolate.CaptureAndSetSimpleStackTrace c T (some (args.atOrUndefined 2)) i1 with
      ⟨r2, i2⟩
    rcases CaptureAndSetSimpleStackTrace_outcome c T (some (args.atOrUndefined 2)) i1 with
      h2 | ⟨w, h2⟩
    · rw [hs] at h2
      simp only at h2
      subst h2
      exact Or.inl rfl
    · rw [hs] at h2
      cases h2
      exact Or.inr ⟨w, rfl⟩
  · rw [hd] at h1
    cases h1
    exact Or.inr ⟨v, rfl⟩

/-- What `JSGlobalObject::cast` yields is a global object. -/
theorem JSGlobalObject_cast_instance_type (h : Heap) (v : Value) (T : Ref)
    (hc : JSGlobalObject.cast h v = some T) :
    (h.mapOf T).instance_type = .JS_GLOBAL_OBJECT_TYPE := by
  cases v with
  | ref r =>
    by_cases hr : (h.mapOf r).instance_type = .JS_GLOBAL_OBJECT_TYPE
    · simp only [JSGlobalObject.cast, if_pos hr, Option.some.injEq] at hc
      rw [← hc]
      exact hr
    · simp only [JSGlobalObject.cast, if_neg hr] at hc
      cases hc
  | _ => cases hc

/-! ### Frame lemmas of the shape engine and the captures -/

theorem CopyInsertDescriptor_objects (h : Heap) (map : MapRef) (d : Descriptor) :
    (Map.CopyInsertDescriptor h map d).2.objects = h.objects := by
  unfold Map.CopyInsertDescriptor
  split <;> rfl

theorem CopyInsertDescriptor_maps_other (h : Heap) (map : MapRef) (d : Descriptor) (m : MapRef)
    (h1 : m ≠ map) (h2 : m ≠ h.next_map) :
    (Map.CopyInsertDescriptor h map d).2.maps m = h.maps m := by
  unfold Map.CopyInsertDescriptor
  split
  · rfl
  · simp only [Function.update_noteq h2, Function.update_noteq h1]

theorem MigrateToMap_maps (h : Heap) (object : Ref) (new_map : MapRef) :
    (JSObject.MigrateToMap h object new_map).maps = h.maps := rfl

theorem MigrateToMap_objects_other (h : Heap) (object : Ref) (new_map : MapRef) (o : Ref)
    (ho : o ≠ object) : (JSObject.MigrateToMap h object new_map).objects o = h.objects o := by
  simp only [JSObject.MigrateToMap, Heap.setObject, Function.update_noteq ho]

theorem MigrateToMap_map (h : Heap) (object : Ref) (new_map : MapRef) :
    ((JSObject.MigrateToMap h object new_map).objects object).map = new_map := by
  simp only [JSObject.MigrateToMap, Heap.setObject, Function.update_same]

theorem setDetailed_maps (h : Heap) (object : Ref) (frames : List StackFrame) :
    (h.setDetailed object frames).maps = h.maps := rfl

theorem setSimple_maps (h : Heap) (object : Ref) (text : String) :
    (h.setSimple object text).maps = h.maps := rfl

theorem setDetailed_objects_other (h : Heap) (object : Ref) (frames : List StackFrame) (o : Ref)
    (ho : o ≠ object) : (h.setDetailed object frames).objects o = h.objects o := by
  simp only [Heap.setDetailed, Heap.setObject, Function.update_noteq ho]

theorem setSimple_objects_other (h : Heap) (object : Ref) (text : String) (o : Ref)
    (ho : o ≠ object) : (h.setSimple object text).objects o = h.objects o := by
  simp only [Heap.setSimple, Heap.setObject, Function.update_noteq ho]

theorem setDetailed_map (h : Heap) (object : Ref) (frames : List StackFrame) (o : Ref) :
    ((h.setDetailed object frames).objects o).map = (h.objects o).map := by
  by_cases ho : o = object
  · subst ho
    simp only [Heap.setDetailed, Heap.setObject, Function.update_same]
  · rw [setDetailed_objects_other h object frames o ho]

theorem setSimple_map (h : Heap) (object : Ref) (text : String) (o : Ref) :
    ((h.setSimple object text).objects o).map = (h.objects o).map := by
  by_cases ho : o = object
  · subst ho
    simp only [Heap.setSimple, Heap.setObject, Function.update_same]
  · rw [setSimple_objects_other h object text o ho]

theorem addStackAccessors_calls (T : Ref) (isolate : Isolate) :
    (addStackAccessors T isolate).calls =
      isolate.calls ++
        [.CopyInsertDescriptor (isolate.heap.objects T).map stackAccessorDescriptor,
         .MigrateToMap T
          (Map.CopyInsertDescriptor isolate.heap (isolate.heap.objects T).map
            stackAccessorDescriptor).1] := by
  simp [addStackAccessors, Isolate.record]

theorem addStackAccessors_heap (T : Ref) (isolate : Isolate) :
    (addStackAccessors T isolate).heap =
      JSObject.MigrateToMap
        (Map.CopyInsertDescriptor isolate.heap (isolate.heap.objects T).map
          stackAccessorDescriptor).2 T
        (Map.CopyInsertDescriptor isolate.heap (isolate.heap.objects T).map
          stackAccessorDescriptor).1 := rfl

theorem addStackAccessors_bootstrapper (T : Ref) (isolate : Isolate) :
    (addStackAccessors T isolate).bootstrapper_active = isolate.bootstrapper_active := rfl

/-- A call that passes the guard and whose detailed capture throws. -/
theorem ErrorCaptureStackTrace_detailed_throws (c : Collaborators) (args : BuiltinArguments)
    (isolate : Isolate) (object T : Ref) (v : Value)
    (hobj : JSObject.cast isolate.heap (args.atOrUndefined 1) = some object)
    (hT : globalObjectRedirect isolate.heap object = some T)
    (hg : stackIsExtensible c isolate.heap T = true)
    (hd : c.CaptureDetailed (addStackAccessors T isolate).heap T = .error v) :
    ErrorCaptureStackTrace c args isolate =
      (.error (.Pending v),
        (addStackAccessors T isolate).record (.CaptureAndSetDetailedStackTrace T)) := by
  have hh : ((addStackAccessors T isolate).record (.CaptureAndSetDetailedStackTrace T)).heap =
      (addStackAccessors T isolate).heap := rfl
  rw [ErrorCaptureStackTrace_passed c args isolate object T hobj hT hg]
  simp only [Isolate.CaptureAndSetDetailedStackTrace, hh, hd]

/-- A call that passes the guard, whose detailed capture succeeds and whose
simple capture throws. -/
theorem ErrorCaptureStackTrace_simple_throws (c : Collaborators) (args : BuiltinArguments)
    (isolate : Isolate) (object T : Ref) (frames : List StackFrame) (v : Value)
    (hobj : JSObject.cast isolate.heap (args.atOrUndefined 1) = some object)
    (hT : globalObjectRedirect isolate.heap object = some T)
    (hg : stackIsExtensible c isolate.heap T = true)
    (hd : c.CaptureDetailed (addStackAccessors T isolate).heap T = .ok frames)
    (hs : c.CaptureSimple ((addStackAccessors T isolate).heap.setDetailed T frames) T
      (some (args.atOrUndefined 2)) = .error v) :
    ErrorCaptureStackTrace c args isolate =
      (.error (.Pending v),
        Isolate.record
          { (addStackAccessors T isolate).record (.CaptureAndSetDetailedStackTrace T) with
            heap := (addStackAccessors T isolate).heap.setDetailed T frames }
          (.CaptureAndSetSimpleStackTrace T (some (args.atOrUndefined 2)))) := by
  have hh : ((addStackAccessors T isolate).record (.CaptureAndSetDetailedStackTrace T)).heap =
      (addStackAccessors T isolate).heap := rfl
  rw [ErrorCaptureStackTrace_passed c args isolate object T hobj hT hg]
  simp only [Isolate.CaptureAndSetDetailedStackTrace, hh, hd,
    Isolate.CaptureAndSetSimpleStackTrace, Isolate.record, hs]

/-- A call that passes the guard and whose two captures succeed. -/
theorem ErrorCaptureStackTrace_succeeds (c : Collaborators) (args : BuiltinArguments)
    (isolate : Isolate) (object T : Ref) (frames : List StackFrame) (text : String)
    (hobj : JSObject.cast isolate.heap (args.atOrUndefined 1) = some object)
    (hT : globalObjectRedirect isolate.heap object = some T)
    (hg : stackIsExtensible c isolate.heap T = true)
    (hd : c.CaptureDetailed (addStackAccessors T isolate).heap T = .ok frames)
    (hs : c.CaptureSimple ((addStackAccessors T isolate).heap.setDetailed T frames) T
      (some (args.atOrUndefined 2)) = .ok text) :
    ErrorCaptureStackTrace c args isolate =
      (.ok Value.undefined,
        { heap := ((addStackAccessors T isolate).heap.setDetailed T frames).setSimple T text
          bootstrapper_active := isolate.bootstrapper_active
          calls := (addStackAccessors T isolate).calls ++
            [.CaptureAndSetDetailedStackTrace T,
             .CaptureAndSetSimpleStackTrace T (some (args.atOrUndefined 2))] }) := by
  have hh : ((addStackAccessors T isolate).record (.CaptureAndSetDetailedStackTrace T)).heap =
      (addStackAccessors T isolate).heap := rfl
  rw [ErrorCaptureStackTrace_passed c args isolate object T hobj hT hg]
  simp only [Isolate.CaptureAndSetDetailedStackTrace, hh, hd,
    Isolate.CaptureAndSetSimpleStackTrace, Isolate.record, hs, List.append_assoc,
    List.singleton_append, addStackAccessors_bootstrapper]

/-- What a call that passes the guard leaves of the heap: the other objects
are as before, the maps are those after the insertion, and the target is on
the map the insertion returned. -/
theorem ErrorCaptureStackTrace_passed_frame (c : Collaborators) (args : BuiltinArguments)
    (isolate : Isolate) (object T : Ref)
    (hobj : JSObject.cast isolate.heap (args.atOrUndefined 1) = some object)
    (hT : globalObjectRedirect isolate.heap object = some T)
    (hg : stackIsExtensible c isolate.heap T = true) :
    (∀ o, o ≠ T →
      (ErrorCaptureStackTrace c args isolate).2.heap.objects o = isolate.heap.objects o) ∧
    (ErrorCaptureStackTrace c args isolate).2.heap.maps =
      (Map.CopyInsertDescriptor isolate.heap (isolate.heap.objects T).map
        stackAccessorDescriptor).2.maps ∧
    ((ErrorCaptureStackTrace c args isolate).2.heap.objects T).map =
      (Map.CopyInsertDescriptor isolate.heap (isolate.heap.objects T).map
        stackAccessorDescriptor).1 := by
  have hother : ∀ o, o ≠ T →
      (addStackAccessors T isolate).heap.objects o = isolate.heap.objects o := by
    intro o ho
    rw [addStackAccessors_heap, MigrateToMap_objects_other _ _ _ _ ho,
      CopyInsertDescriptor_objects]
  have hmaps : (addStackAccessors T isolate).heap.maps =
      (Map.CopyInsertDescriptor isolate.heap (isolate.heap.objects T).map
        stackAccessorDescriptor).2.maps := by
    rw [addStackAccessors_heap, MigrateToMap_maps]
  have hmap : ((addStackAccessors T isolate).heap.objects T).map =
      (Map.CopyInsertDescriptor isolate.heap (isolate.heap.objects T).map
        stackAccessorDescriptor).1 := by
    rw [addStackAccessors_heap, MigrateToMap_map]
  cases hd : c.CaptureDetailed (addStackAccessors T isolate).heap T with
  | error v =>
    rw [ErrorCaptureStackTrace_detailed_throws c args isolate object T v hobj hT hg hd]
    exact ⟨hother, hmaps, hmap⟩
  | ok frames =>
    cases hs : c.CaptureSimple ((addStackAccessors T isolate).heap.setDetailed T frames) T
        (some (args.atOrUndefined 2)) with
    | error v =>
      rw [ErrorCaptureStackTrace_simple_throws c args isolate object T frames v hobj hT hg hd hs]
      refine ⟨?_, ?_, ?_⟩
      · intro o ho
        show ((addStackAccessors T isolate).heap.setDetailed T frames).objects o = _
        rw [setDetailed_objects_other _ _ _ _ ho, hother o ho]
      · exact hmaps
      · show (((addStackAccessors T isolate).heap.setDetailed T frames).objects T).map = _
        rw [setDetailed_map, hmap]
    | ok text =>
      rw [ErrorCaptureStackTrace_succeeds c args isolate object T frames text hobj hT hg hd hs]
      refine ⟨?_, ?_, ?_⟩
      · intro o ho
        show (((addStackAccessors T isolate).heap.setDetailed T frames).setSimple T
          text).objects o = _
        rw [setSimple_objects_other _ _ _ _ ho, setDetailed_objects_other _ _ _ _ ho,
          hother o ho]
      · exact hmaps
      · show ((((addStackAccessors T isolate).heap.setDetailed T frames).setSimple T
          text).objects T).map = _
        rw [setSimple_map, setDetailed_map, hmap]

/-- Every call of `ErrorCaptureStackTrace` that does not pass the guard leaves
the state as it is. -/
theorem ErrorCaptureStackTrace_unchanged_unless_passed (c : Collaborators)
    (args : BuiltinArguments) (isolate : Isolate)
    (h : ∀ object T, JSObject.cast isolate.heap (args.atOrUndefined 1) = some object →
      globalObjectRedirect isolate.heap object = some T →
      stackIsExtensible c isolate.heap T = false) :
    (ErrorCaptureStackTrace c args isolate).2 = isolate := by
  rcases hcast : JSObject.cast isolate.heap (args.atOrUndefined 1) with _ | object
  · simp [ErrorCaptureStackTrace, hcast]
  · rcases hT : globalObjectRedirect isolate.heap object with _ | T
    · simp [ErrorCaptureStackTrace, hcast, hT]
    · rw [ErrorCaptureStackTrace_rejected c args isolate object T hcast hT (h object T hcast hT)]

/-! ### Own properties -/

theorem lastIndexOfKey_append_key (ds : List Descriptor) (d : Descriptor) :
    lastIndexOfKey (ds ++ [d]) d.key = some ds.length := by
  induction ds with
  | nil => simp [lastIndexOfKey]
  | cons x rest ih =>
    simp only [List.cons_append, lastIndexOfKey, List.append_eq, ih, List.length_cons]

/-- The map an insertion returns has the descriptors of the parent plus the
inserted one, on a heap whose transition tables are sound. -/
theorem CopyInsertDescriptor_descriptors (h : Heap) (map : MapRef) (d : Descriptor)
    (hs : h.TransitionsSound) :
    ((Map.CopyInsertDescriptor h map d).2.maps (Map.CopyInsertDescriptor h map d).1).descriptors =
      (h.maps map).descriptors ++ [d] := by
  unfold Map.CopyInsertDescriptor
  split
  · rename_i child hl
    exact hs map d child hl
  · simp only [Function.update_same]

/-- After `SetOwnPropertyIgnoreAttributes` the object owns the property as a
data property with the given value and attributes. -/
theorem SetOwnPropertyIgnoreAttributes_GetOwnProperty (h : Heap) (object : Ref) (name : String)
    (value : Value) (attributes : PropertyAttributes) (hs : h.TransitionsSound) :
    (h.SetOwnPropertyIgnoreAttributes object name value attributes).GetOwnProperty object name =
      some ({ key := name, kind := .DATA, attributes := attributes }, value) := by
  have hd := CopyInsertDescriptor_descriptors h (h.objects object).map
    { key := name, kind := .DATA, attributes := attributes } hs
  have hk := lastIndexOfKey_append_key (h.maps (h.objects object).map).descriptors
    { key := name, kind := .DATA, attributes := attributes }
  simp only [Heap.GetOwnProperty, Heap.mapOf, Heap.SetOwnPropertyIgnoreAttributes,
    Heap.setObject, JSObject.MigrateToMap, Function.update_same, hd, hk,
    List.length_append, List.length_singleton, Nat.add_sub_cancel]
  have hget : ((h.maps (h.objects object).map).descriptors ++
      [({ key := name, kind := .DATA, attributes := attributes } : Descriptor)])[
        (h.maps (h.objects object).map).descriptors.length]? =
      some { key := name, kind := .DATA, attributes := attributes } := by
    simp
  rw [hget]
  simp only [Option.map_some']
  congr 2
  rw [List.getD_eq_getElem?_getD, List.getElem?_set_self]
  · rfl
  · rw [List.length_append, List.length_replicate]
    omega

theorem GetOwnProperty_setDetailed (h : Heap) (object : Ref) (frames : List StackFrame)
    (o : Ref) (key : String) :
    (h.setDetailed object frames).GetOwnProperty o key = h.GetOwnProperty o key := by
  by_cases ho : o = object
  · subst ho
    simp only [Heap.GetOwnProperty, Heap.mapOf, Heap.setDetailed, Heap.setObject,
      Function.update_same]
  · simp only [Heap.GetOwnProperty, Heap.mapOf, setDetailed_maps,
      setDetailed_objects_other h object frames o ho]

theorem GetOwnProperty_setSimple (h : Heap) (object : Ref) (text : String)
    (o : Ref) (key : String) :
    (h.setSimple object text).GetOwnProperty o key = h.GetOwnProperty o key := by
  by_cases ho : o = object
  · subst ho
    simp only [Heap.GetOwnProperty, Heap.mapOf, Heap.setSimple, Heap.setObject,
      Function.update_same]
  · simp only [Heap.GetOwnProperty, Heap.mapOf, setSimple_maps,
      setSimple_objects_other h object text o ho]

/-! ### The steps of `ErrorConstructor` -/

/-- The isolate state after `JSObject::New` left the heap `h1`. -/
theorem JSObject_New_ok (c : Collaborators) (target new_target : Ref) (isolate : Isolate)
    (err : Ref) (h1 : Heap) (hnew : c.New isolate.heap target new_target = (.ok err, h1)) :
    JSObject.New c target new_target isolate =
      (.ok err, { heap := h1, bootstrapper_active := isolate.bootstrapper_active,
                  calls := isolate.calls ++ [.New target new_target] }) := by
  have hh : (isolate.record (.New target new_target)).heap = isolate.heap := rfl
  simp only [JSObject.New, hh, hnew, Isolate.record]

theorem JSObject_New_error (c : Collaborators) (target new_target : Ref) (isolate : Isolate)
    (v : Value) (h1 : Heap) (hnew : c.New isolate.heap target new_target = (.error v, h1)) :
    JSObject.New c target new_target isolate =
      (.error (.Pending v), { heap := h1, bootstrapper_active := isolate.bootstrapper_active,
                              calls := isolate.calls ++ [.New target new_target] }) := by
  have hh : (isolate.record (.New target new_target)).heap = isolate.heap := rfl
  simp only [JSObject.New, hh, hnew, Isolate.record]

/-- `Object::ToString` records one call and leaves the bootstrapper flag. -/
theorem Object_ToString_state (c : Collaborators) (input : Value) (isolate : Isolate) :
    (Object.ToString c input isolate).2.calls = isolate.calls ++ [.ToString input] ∧
    (Object.ToString c input isolate).2.bootstrapper_active = isolate.bootstrapper_active := by
  unfold Object.ToString
  cases input <;> first | exact ⟨rfl, rfl⟩ | (simp only []; split <;> exact ⟨rfl, rfl⟩)

/-- `Object::ToString` of a string is that string. -/
theorem Object_ToString_string (c : Collaborators) (s : String) (isolate : Isolate) :
    Object.ToString c (Value.string s) isolate =
      (.ok s, isolate.record (.ToString (Value.string s))) := rfl

/-- `Object::ToString` succeeds or leaves a pending exception. -/
theorem Object_ToString_outcome (c : Collaborators) (input : Value) (isolate : Isolate) :
    (∃ s, (Object.ToString c input isolate).1 = .ok s) ∨
      ∃ v, (Object.ToString c input isolate).1 = .error (.Pending v) := by
  unfold Object.ToString
  cases input <;> first | exact Or.inl ⟨_, rfl⟩ |
    (simp only []; split
     · exact Or.inl ⟨_, rfl⟩
     · exact Or.inr ⟨_, rfl⟩)

theorem defineMessage_undefined (c : Collaborators) (err : Ref) (isolate : Isolate) :
    defineMessage c err Value.undefined isolate = (.ok (), isolate) := by
  simp only [defineMessage, if_true]

theorem defineMessage_ok (c : Collaborators) (err : Ref) (msg : Value) (isolate i2 : Isolate)
    (s : String) (hmsg : msg ≠ Value.undefined)
    (hstr : Object.ToString c msg isolate = (.ok s, i2)) :
    defineMessage c err msg isolate =
      (.ok (),
        { heap := i2.heap.SetOwnPropertyIgnoreAttributes err "message" (Value.string s) DONT_ENUM
          bootstrapper_active := isolate.bootstrapper_active
          calls := isolate.calls ++
            [.ToString msg,
             .SetOwnPropertyIgnoreAttributes err "message" (Value.string s) DONT_ENUM] }) := by
  have hst := Object_ToString_state c msg isolate
  rw [hstr] at hst
  simp only at hst
  simp only [defineMessage, if_neg hmsg, hstr, JSObject.SetOwnPropertyIgnoreAttributes,
    Isolate.record, hst.1, hst.2, List.append_assoc, List.singleton_append]

theorem defineMessage_error (c : Collaborators) (err : Ref) (msg : Value) (isolate i2 : Isolate)
    (e : Failure) (hmsg : msg ≠ Value.undefined)
    (hstr : Object.ToString c msg isolate = (.error e, i2)) :
    defineMessage c err msg isolate = (.error e, i2) := by
  simp only [defineMessage, if_neg hmsg, hstr]

theorem captureUnlessSettingUp_active (c : Collaborators) (err : Ref) (isolate : Isolate)
    (hb : isolate.bootstrapper_active = true) :
    captureUnlessSettingUp c err isolate = (.ok (Value.ref err), isolate) := by
  simp [captureUnlessSettingUp, hb]

theorem captureUnlessSettingUp_detailed_throws (c : Collaborators) (err : Ref)
    (isolate : Isolate) (v : Value) (hb : isolate.bootstrapper_active = false)
    (hd : c.CaptureDetailed isolate.heap err = .error v) :
    captureUnlessSettingUp c err isolate =
      (.error (.Pending v),
        { heap := isolate.heap, bootstrapper_active := isolate.bootstrapper_active,
          calls := isolate.calls ++ [.CaptureAndSetDetailedStackTrace err] }) := by
  have hh : (isolate.record (.CaptureAndSetDetailedStackTrace err)).heap = isolate.heap := rfl
  simp [captureUnlessSettingUp, hb, Isolate.CaptureAndSetDetailedStackTrace, hh, hd,
    Isolate.record]

theorem captureUnlessSettingUp_simple_throws (c : Collaborators) (err : Ref)
    (isolate : Isolate) (frames : List StackFrame) (v : Value)
    (hb : isolate.bootstrapper_active = false)
    (hd : c.CaptureDetailed isolate.heap err = .ok frames)
    (hs : c.CaptureSimple (isolate.heap.setDetailed err frames) err none = .error v) :
    captureUnlessSettingUp c err isolate =
      (.error (.Pending v),
        { heap := isolate.heap.setDetailed err frames
          bootstrapper_active := isolate.bootstrapper_active
          calls := isolate.calls ++
            [.CaptureAndSetDetailedStackTrace err, .CaptureAndSetSimpleStackTrace err none] }) := by
  have hh : (isolate.record (.CaptureAndSetDetailedStackTrace err)).heap = isolate.heap := rfl
  simp [captureUnlessSettingUp, hb, Isolate.CaptureAndSetDetailedStackTrace, hh, hd,
    Isolate.CaptureAndSetSimpleStackTrace, Isolate.record, hs]

theorem captureUnlessSettingUp_succeeds (c : Collaborators) (err : Ref)
    (isolate : Isolate) (frames : List StackFrame) (text : String)
    (hb : isolate.bootstrapper_active = false)
    (hd : c.CaptureDetailed isolate.heap err = .ok frames)
    (hs : c.CaptureSimple (isolate.heap.setDetailed err frames) err none = .ok text) :
    captureUnlessSettingUp c err isolate =
      (.ok (Value.ref err),
        { heap := (isolate.heap.setDetailed err frames).setSimple err text
          bootstrapper_active := isolate.bootstrapper_active
          calls := isolate.calls ++
            [.CaptureAndSetDetailedStackTrace err, .CaptureAndSetSimpleStackTrace err none] }) := by
  have hh : (isolate.record (.CaptureAndSetDetailedStackTrace err)).heap = isolate.heap := rfl
  simp [captureUnlessSettingUp, hb, Isolate.CaptureAndSetDetailedStackTrace, hh, hd,
    Isolate.CaptureAndSetSimpleStackTrace, Isolate.record, hs]

/-- The capture step returns the object or fails with the pending exception of
a capture; it changes no own property and only records captures. -/
theorem captureUnlessSettingUp_frame (c : Collaborators) (err : Ref) (isolate : Isolate) :
    ((captureUnlessSettingUp c err isolate).1 = .ok (Value.ref err) ∨
      ∃ v, (captureUnlessSettingUp c err isolate).1 = .error (.Pending v)) ∧
    (∀ o key, (captureUnlessSettingUp c err isolate).2.heap.GetOwnProperty o key =
      isolate.heap.GetOwnProperty o key) ∧
    (∃ rest, (captureUnlessSettingUp c err isolate).2.calls = isolate.calls ++ rest ∧
      ∀ x ∈ rest, x = .CaptureAndSetDetailedStackTrace err ∨
        x = .CaptureAndSetSimpleStackTrace err none) := by
  cases hb : isolate.bootstrapper_active with
  | true =>
    rw [captureUnlessSettingUp_active c err isolate hb]
    exact ⟨Or.inl rfl, fun _ _ => rfl, [], by simp, by simp⟩
  | false =>
    cases hd : c.CaptureDetailed isolate.heap err with
    | error v =>
      rw [captureUnlessSettingUp_detailed_throws c err isolate v hb hd]
      exact ⟨Or.inr ⟨v, rfl⟩, fun _ _ => rfl, [.CaptureAndSetDetailedStackTrace err], rfl,
        by simp⟩
    | ok frames =>
      cases hs : c.CaptureSimple (isolate.heap.setDetailed err frames) err none with
      | error v =>
        rw [captureUnlessSettingUp_simple_throws c err isolate frames v hb hd hs]
        refine ⟨Or.inr ⟨v, rfl⟩, fun o key => GetOwnProperty_setDetailed _ _ _ _ _,
          [.CaptureAndSetDetailedStackTrace err, .CaptureAndSetSimpleStackTrace err none],
          rfl, by simp⟩
      | ok text =>
        rw [captureUnlessSettingUp_succeeds c err isolate frames text hb hd hs]
        refine ⟨Or.inl rfl, fun o key => ?_,
          [.CaptureAndSetDetailedStackTrace err, .CaptureAndSetSimpleStackTrace err none],
          rfl, by simp⟩
        show ((isolate.heap.setDetailed err frames).setSimple err text).GetOwnProperty o key = _
        rw [GetOwnProperty_setSimple, GetOwnProperty_setDetailed]

/-- `ErrorConstructor` after a successful `JSObject::New`. -/
theorem ErrorConstructor_of_New_ok (c : Collaborators) (args : BuiltinArguments)
    (isolate : Isolate) (err : Ref) (h1 : Heap)
    (hnew : c.New isolate.heap args.target (effectiveNewTarget args) = (.ok err, h1)) :
    ErrorConstructor c args isolate =
      match defineMessage c err (args.atOrUndefined 1)
        { heap := h1, bootstrapper_active := isolate.bootstrapper_active,
          calls := isolate.calls ++ [.New args.target (effectiveNewTarget args)] } with
      | (.error e, isolate) => (.error e, isolate)
      | (.ok (), isolate) => captureUnlessSettingUp c err isolate := by
  simp only [ErrorConstructor, JSObject_New_ok c _ _ isolate err h1 hnew]

theorem ErrorConstructor_of_New_error (c : Collaborators) (args : BuiltinArguments)
    (isolate : Isolate) (v : Value) (h1 : Heap)
    (hnew : c.New isolate.heap args.target (effectiveNewTarget args) = (.error v, h1)) :
    ErrorConstructor c args isolate =
      (.error (.Pending v),
        { heap := h1, bootstrapper_active := isolate.bootstrapper_active,
          calls := isolate.calls ++ [.New args.target (effectiveNewTarget args)] }) := by
  simp only [ErrorConstructor, JSObject_New_error c _ _ isolate v h1 hnew]

theorem plainHeap_TransitionsSound : plainHeap.TransitionsSound := by
  intro m d child h
  simp [plainHeap, plainMap] at h

/-- A message step that succeeded: what it recorded, and the bootstrapper
flag is the one before. -/
theorem defineMessage_ok_state (c : Collaborators) (err : Ref) (msg : Value)
    (isolate j : Isolate) (hdef : defineMessage c err msg isolate = (.ok (), j)) :
    j.bootstrapper_active = isolate.bootstrapper_active ∧
    (msg = Value.undefined → j = isolate) ∧
    (msg ≠ Value.undefined → ∃ s,
      j.calls = isolate.calls ++
        [.ToString msg,
         .SetOwnPropertyIgnoreAttributes err "message" (Value.string s) DONT_ENUM]) := by
  by_cases hmsg : msg = Value.undefined
  · subst hmsg
    rw [defineMessage_undefined] at hdef
    cases hdef
    exact ⟨rfl, fun _ => rfl, fun h => absurd rfl h⟩
  · rcases hstr : Object.ToString c msg isolate with ⟨r, i2⟩
    cases r with
    | error e =>
      rw [defineMessage_error c err msg isolate i2 e hmsg hstr] at hdef
      cases hdef
    | ok s =>
      rw [defineMessage_ok c err msg isolate i2 s hmsg hstr] at hdef
      cases hdef
      exact ⟨rfl, fun h => absurd h hmsg, fun _ => ⟨s, rfl⟩⟩

/-- A call that passes the guard records the insertion, the migration and the
detailed capture, and after them at most the simple capture. -/
theorem ErrorCaptureStackTrace_passed_calls (c : Collaborators) (args : BuiltinArguments)
    (isolate : Isolate) (object T : Ref)
    (hobj : JSObject.cast isolate.heap (args.atOrUndefined 1) = some object)
    (hT : globalObjectRedirect isolate.heap object = some T)
    (hg : stackIsExtensible c isolate.heap T = true) :
    ∃ rest, (ErrorCaptureStackTrace c args isolate).2.calls =
      isolate.calls ++
        Call.CopyInsertDescriptor (isolate.heap.objects T).map stackAccessorDescriptor ::
        Call.MigrateToMap T (Map.CopyInsertDescriptor isolate.heap (isolate.heap.objects T).map
          stackAccessorDescriptor).1 ::
        Call.CaptureAndSetDetailedStackTrace T :: rest ∧
      (rest = [] ∨ rest = [.CaptureAndSetSimpleStackTrace T (some (args.atOrUndefined 2))]) := by
  cases hd : c.CaptureDetailed (addStackAccessors T isolate).heap T with
  | error v =>
    rw [ErrorCaptureStackTrace_detailed_throws c args isolate object T v hobj hT hg hd]
    refine ⟨[], ?_, Or.inl rfl⟩
    simp [Isolate.record, addStackAccessors_calls]
  | ok frames =>
    cases hs : c.CaptureSimple ((addStackAccessors T isolate).heap.setDetailed T frames) T
        (some (args.atOrUndefined 2)) with
    | error v =>
      rw [ErrorCaptureStackTrace_simple_throws c args isolate object T frames v hobj hT hg hd hs]
      refine ⟨_, ?_, Or.inr rfl⟩
      simp [Isolate.record, addStackAccessors_calls]
    | ok text =>
      rw [ErrorCaptureStackTrace_succeeds c args isolate object T frames text hobj hT hg hd hs]
      refine ⟨_, ?_, Or.inr rfl⟩
      simp [addStackAccessors_calls]

/-! ## Theorems: `ErrorPrototypeToString` -/

/-- C1 (as amended). For an object receiver whose "name" lookup yields the text
`n` and whose "message" lookup yields the text `m`, `ErrorPrototypeToString`
returns `m` if `n` is empty, otherwise `n` if `m` is empty, otherwise what the
string builder finishes with: `n`, then ": ", then `m` when the length of that
text in UTF-16 code units is at most `String::kMaxLength`, and the
invalid-string-length range error when it is more. In particular two empty
texts give the empty text. -/
theorem ErrorPrototypeToString_three_cases (c : Collaborators) (args : BuiltinArguments)
    (isolate s1 s2 : Isolate) (receiver : Ref) (n m : String)
    (hrecv : args.receiver = Value.ref receiver)
    (hname : GetStringPropertyOrDefault c receiver "name" "Error" isolate = (.ok n, s1))
    (hmsg : GetStringPropertyOrDefault c receiver "message" "" s1 = (.ok m, s2)) :
    (ErrorPrototypeToString c args isolate =
      (if n = "" then .ok m
        else if m = "" then .ok n
        else if utf16Length n + 2 + utf16Length m ≤ c.kMaxLength then
          .ok (n ++ ": " ++ m)
        else .error (.NewRangeError .kInvalidStringLength), s2)) ∧
    (n = "" → m = "" → (ErrorPrototypeToString c args isolate).1 = .ok "") := by
  have h := ErrorPrototypeToString_of_lookups c args isolate s1 s2 receiver n m hrecv hname hmsg
  refine ⟨h, ?_⟩
  intro hn hm
  rw [h, if_pos hn, hm]

/-- Witness of C1: name "Error" and message "x" give "Error: x"; name "E" and
a message of one character outside the basic plane give a text of five code
units, which is returned when strings hold five code units and is the range
error when they hold four. -/
theorem ErrorPrototypeToString_three_cases_witness :
    (ErrorPrototypeToString (readingCollaborators (Value.string "Error") (Value.string "x"))
      plainArguments plainIsolate).1 = .ok "Error: x" ∧
    (ErrorPrototypeToString
      (limitedTo 5 (readingCollaborators (Value.string "E") (Value.string "😀")))
      plainArguments plainIsolate).1 = .ok "E: 😀" ∧
    (ErrorPrototypeToString
      (limitedTo 4 (readingCollaborators (Value.string "E") (Value.string "😀")))
      plainArguments plainIsolate).1 = .error (.NewRangeError .kInvalidStringLength) := by
  have h := (ErrorPrototypeToString_three_cases
    (readingCollaborators (Value.string "Error") (Value.string "x"))
    plainArguments plainIsolate _ _ 3 "Error" "x" rfl rfl rfl).1
  have h5 := (ErrorPrototypeToString_three_cases
    (limitedTo 5 (readingCollaborators (Value.string "E") (Value.string "😀")))
    plainArguments plainIsolate _ _ 3 "E" "😀" rfl rfl rfl).1
  have h4 := (ErrorPrototypeToString_three_cases
    (limitedTo 4 (readingCollaborators (Value.string "E") (Value.string "😀")))
    plainArguments plainIsolate _ _ 3 "E" "😀" rfl rfl rfl).1
  rw [h, h5, h4]
  exact ⟨rfl, rfl, rfl⟩

/-- Counterexample to C1 as stated: with name "E" and a message of
`(1 << 28) - 16` code units, both lookups yield their texts, neither is empty,
and the result is not name, ": ", message but the range error of the string
builder. -/
theorem ErrorPrototypeToString_three_cases_counterexample :
    (GetStringPropertyOrDefault
        (readingCollaborators (Value.string "E") (Value.string (longText 268435440)))
        3 "name" "Error" plainIsolate).1 = .ok "E" ∧
    (GetStringPropertyOrDefault
        (readingCollaborators (Value.string "E") (Value.string (longText 268435440)))
        3 "message" ""
        (GetStringPropertyOrDefault
          (readingCollaborators (Value.string "E") (Value.string (longText 268435440)))
          3 "name" "Error" plainIsolate).2).1 = .ok (longText 268435440) ∧
    "E" ≠ "" ∧ longText 268435440 ≠ "" ∧
    (ErrorPrototypeToString
        (readingCollaborators (Value.string "E") (Value.string (longText 268435440)))
        plainArguments plainIsolate).1 = .error (.NewRangeError .kInvalidStringLength) ∧
    (ErrorPrototypeToString
        (readingCollaborators (Value.string "E") (Value.string (longText 268435440)))
        plainArguments plainIsolate).1 ≠ .ok ("E" ++ ": " ++ longText 268435440) := by
  have hE : ("E" : String) ≠ "" := by decide
  have hL : longText 268435440 ≠ "" := longText_ne_empty _ (by decide)
  have h := ErrorPrototypeToString_of_lookups
    (readingCollaborators (Value.string "E") (Value.string (longText 268435440)))
    plainArguments plainIsolate _ _ 3 "E" (longText 268435440) rfl rfl rfl
  have hlen : ¬ (utf16Length "E" + 2 + utf16Length (longText 268435440) ≤
      (readingCollaborators (Value.string "E")
        (Value.string (longText 268435440))).kMaxLength) := by
    rw [utf16Length_longText]
    decide
  rw [if_neg hE, if_neg hL, if_neg hlen] at h
  refine ⟨rfl, rfl, hE, hL, ?_, ?_⟩
  · rw [h]
  · rw [h]
    intro hc
    cases hc

/-- C2 (as amended). `ErrorPrototypeToString` takes "Error" for a "name" that
reads as undefined and the empty text for a "message" that reads as undefined:
with neither property the result is "Error"; with only a non-empty message `m`
it is "Error: " followed by `m` when those 7 code units and the UTF-16 code
units of `m` are at most `String::kMaxLength`, and the range error of the
string builder otherwise; with only a name `n` it is `n`. -/
theorem ErrorPrototypeToString_defaults (c : Collaborators) (args : BuiltinArguments)
    (isolate : Isolate) (receiver : Ref) (hrecv : args.receiver = Value.ref receiver) :
    (∀ h1 h2 : Heap,
      c.GetProperty isolate.heap receiver "name" = (.ok Value.undefined, h1) →
      c.GetProperty h1 receiver "message" = (.ok Value.undefined, h2) →
      (ErrorPrototypeToString c args isolate).1 = .ok "Error") ∧
    (∀ (h1 h2 : Heap) (m : String),
      c.GetProperty isolate.heap receiver "name" = (.ok Value.undefined, h1) →
      c.GetProperty h1 receiver "message" = (.ok (Value.string m), h2) →
      m ≠ "" →
      (ErrorPrototypeToString c args isolate).1 =
        if 7 + utf16Length m ≤ c.kMaxLength then .ok ("Error: " ++ m)
        else .error (.NewRangeError .kInvalidStringLength)) ∧
    (∀ (h1 h2 : Heap) (n : String),
      c.GetProperty isolate.heap receiver "name" = (.ok (Value.string n), h1) →
      c.GetProperty h1 receiver "message" = (.ok Value.undefined, h2) →
      (ErrorPrototypeToString c args isolate).1 = .ok n) := by
  have hError : ("Error" : String) ≠ "" := by decide
  refine ⟨?_, ?_, ?_⟩
  · intro h1 h2 hn hm
    have hname := GetStringPropertyOrDefault_of_undefined c receiver "name" "Error" isolate h1 hn
    have hmsg := GetStringPropertyOrDefault_of_undefined c receiver "message" ""
      { isolate.record (.GetProperty receiver "name") with heap := h1 } h2 hm
    rw [ErrorPrototypeToString_of_lookups c args isolate _ _ receiver "Error" "" hrecv hname hmsg]
    rw [if_neg hError, if_pos rfl]
  · intro h1 h2 m hn hm hne
    have hname := GetStringPropertyOrDefault_of_undefined c receiver "name" "Error" isolate h1 hn
    have hmsg := GetStringPropertyOrDefault_of_string c receiver "message" ""
      { isolate.record (.GetProperty receiver "name") with heap := h1 } h2 m hm
    rw [ErrorPrototypeToString_of_lookups c args isolate _ _ receiver "Error" m hrecv hname hmsg]
    rw [if_neg hError, if_neg hne]
    have h5 : utf16Length "Error" + 2 + utf16Length m = 7 + utf16Length m := by
      have : utf16Length "Error" = 5 := by decide
      omega
    have happ : ("Error" : String) ++ ": " = "Error: " := by decide
    simp only [h5, happ]
  · intro h1 h2 n hn hm
    have hname := GetStringPropertyOrDefault_of_string c receiver "name" "Error" isolate h1 n hn
    have hmsg := GetStringPropertyOrDefault_of_undefined c receiver "message" ""
      (Isolate.record { isolate.record (.GetProperty receiver "name") with heap := h1 }
        (.ToString (Value.string n))) h2 hm
    rw [ErrorPrototypeToString_of_lookups c args isolate _ _ receiver n "" hrecv hname hmsg]
    by_cases hne : n = ""
    · rw [if_pos hne, hne]
    · rw [if_neg hne, if_pos rfl]

/-- Witness of C2: a receiver with neither property gives "Error", and one
with only the message "boom" gives "Error: boom". -/
theorem ErrorPrototypeToString_defaults_witness :
    (ErrorPrototypeToString (readingCollaborators Value.undefined Value.undefined)
      plainArguments plainIsolate).1 = .ok "Error" ∧
    (ErrorPrototypeToString (readingCollaborators Value.undefined (Value.string "boom"))
      plainArguments plainIsolate).1 = .ok "Error: boom" :=
  ⟨(ErrorPrototypeToString_defaults (readingCollaborators Value.undefined Value.undefined)
      plainArguments plainIsolate 3 rfl).1 plainHeap plainHeap rfl rfl,
   ((ErrorPrototypeToString_defaults
      (readingCollaborators Value.undefined (Value.string "boom"))
      plainArguments plainIsolate 3 rfl).2.1 plainHeap plainHeap "boom" rfl rfl
      (by decide)).trans rfl⟩

/-- Counterexample to C2 as stated: a receiver with only a message of
`(1 << 28) - 16` code units does not give "Error: " followed by the message
but the range error of the string builder. -/
theorem ErrorPrototypeToString_defaults_counterexample :
    (readingCollaborators Value.undefined (Value.string (longText 268435440))).GetProperty
        plainIsolate.heap 3 "name" = (.ok Value.undefined, plainHeap) ∧
    (readingCollaborators Value.undefined (Value.string (longText 268435440))).GetProperty
        plainHeap 3 "message" = (.ok (Value.string (longText 268435440)), plainHeap) ∧
    longText 268435440 ≠ "" ∧
    (ErrorPrototypeToString
        (readingCollaborators Value.undefined (Value.string (longText 268435440)))
        plainArguments plainIsolate).1 = .error (.NewRangeError .kInvalidStringLength) ∧
    (ErrorPrototypeToString
        (readingCollaborators Value.undefined (Value.string (longText 268435440)))
        plainArguments plainIsolate).1 ≠ .ok ("Error: " ++ longText 268435440) := by
  have hE : ("Error" : String) ≠ "" := by decide
  have hL : longText 268435440 ≠ "" := longText_ne_empty _ (by decide)
  have h := ErrorPrototypeToString_of_lookups
    (readingCollaborators Value.undefined (Value.string (longText 268435440)))
    plainArguments plainIsolate _ _ 3 "Error" (longText 268435440) rfl rfl rfl
  have hlen : ¬ (utf16Length "Error" + 2 + utf16Length (longText 268435440) ≤
      (readingCollaborators Value.undefined
        (Value.string (longText 268435440))).kMaxLength) := by
    rw [utf16Length_longText]
    decide
  rw [if_neg hE, if_neg hL, if_neg hlen] at h
  refine ⟨rfl, rfl, hL, ?_, ?_⟩
  · rw [h]
  · rw [h]
    intro hc
    cases hc

/-! ## Theorems: `ErrorCaptureStackTrace` -/

/-- C3. With `T` the object the call works on after the global-proxy redirect,
`ErrorCaptureStackTrace` fails with the type error `kDefineDisallowed` for the
key "stack" and the object `T` if and only if `T` is not extensible or the
lookup finds an own "stack" whose descriptor is not both configurable and
writable; an extensible `T` for which the lookup finds no own "stack" passes
the guard and the call does not fail with a type error. -/
theorem ErrorCaptureStackTrace_guard (c : Collaborators) (args : BuiltinArguments)
    (isolate : Isolate) (object T : Ref)
    (hobj : JSObject.cast isolate.heap (args.atOrUndefined 1) = some object)
    (hT : globalObjectRedirect isolate.heap object = some T) :
    ((ErrorCaptureStackTrace c args isolate).1 =
        .error (.NewTypeError .kDefineDisallowed [Value.string "stack", Value.ref T]) ↔
      (JSObject.IsExtensible isolate.heap T = false ∨
        ∃ desc, c.GetOwnPropertyDescriptor isolate.heap T "stack" = (some true, desc) ∧
          ¬ (desc.configurable = true ∧ desc.writable = true))) ∧
    (JSObject.IsExtensible isolate.heap T = true →
      (c.GetOwnPropertyDescriptor isolate.heap T "stack").1 = some false →
      stackIsExtensible c isolate.heap T = true ∧
      ∀ t a, (ErrorCaptureStackTrace c args isolate).1 ≠ .error (.NewTypeError t a)) := by
  have hpass : stackIsExtensible c isolate.heap T = true →
      ∀ t a, (ErrorCaptureStackTrace c args isolate).1 ≠ .error (.NewTypeError t a) := by
    intro hg t a hc
    rcases ErrorCaptureStackTrace_passed_outcome c args isolate object T hobj hT hg with
      h | ⟨v, h⟩
    · rw [h] at hc
      cases hc
    · rw [h] at hc
      cases hc
  constructor
  · rw [← stackIsExtensible_eq_false_iff]
    constructor
    · intro hfail
      cases hg : stackIsExtensible c isolate.heap T with
      | false => rfl
      | true => exact absurd hfail (hpass hg _ _)
    · intro hg
      rw [ErrorCaptureStackTrace_rejected c args isolate object T hobj hT hg]
  · intro hext hown
    have hg : stackIsExtensible c isolate.heap T = true := by
      cases hs : stackIsExtensible c isolate.heap T with
      | true => rfl
      | false =>
        rcases (stackIsExtensible_eq_false_iff c isolate.heap T).mp hs with h | ⟨desc, h, _⟩
        · rw [hext] at h
          cases h
        · rw [h] at hown
          cases hown
    exact ⟨hg, hpass hg⟩

/-- Witness of C3: an extensible object whose own "stack" is not configurable
is rejected. -/
theorem ErrorCaptureStackTrace_guard_witness :
    (ErrorCaptureStackTrace (lockedLookup (readingCollaborators Value.undefined Value.undefined))
      plainArguments plainIsolate).1 =
      .error (.NewTypeError .kDefineDisallowed [Value.string "stack", Value.ref 3]) :=
  (ErrorCaptureStackTrace_guard
    (lockedLookup (readingCollaborators Value.undefined Value.undefined))
    plainArguments plainIsolate 3 3 rfl rfl).1.mpr
    (Or.inr ⟨{ enumerable := false, configurable := false, writable := true }, rfl,
      by decide⟩)

/-- C4. When `ErrorCaptureStackTrace` fails because its argument is not a
`JSObject` or because the guard rejects the target, the isolate state is the
one before the call: every object has the map, the property storage and the
stack-trace state it had, the maps are the same, and no call was made, so
neither an insertion nor a migration nor a capture. -/
theorem ErrorCaptureStackTrace_failure_mutates_nothing (c : Collaborators)
    (args : BuiltinArguments) (isolate : Isolate)
    (hfail : JSObject.cast isolate.heap (args.atOrUndefined 1) = none ∨
      ∃ object T, JSObject.cast isolate.heap (args.atOrUndefined 1) = some object ∧
        globalObjectRedirect isolate.heap object = some T ∧
        stackIsExtensible c isolate.heap T = false) :
    (∃ t a, (ErrorCaptureStackTrace c args isolate).1 = .error (.NewTypeError t a)) ∧
    (ErrorCaptureStackTrace c args isolate).2 = isolate ∧
    (∀ o, (ErrorCaptureStackTrace c args isolate).2.heap.objects o = isolate.heap.objects o) ∧
    (ErrorCaptureStackTrace c args isolate).2.heap.maps = isolate.heap.maps ∧
    (ErrorCaptureStackTrace c args isolate).2.calls = isolate.calls := by
  have hkey : (∃ t a, (ErrorCaptureStackTrace c args isolate).1 = .error (.NewTypeError t a)) ∧
      (ErrorCaptureStackTrace c args isolate).2 = isolate := by
    rcases hfail with hnone | ⟨object, T, hobj, hT, hg⟩
    · have h : ErrorCaptureStackTrace c args isolate =
          (.error (.NewTypeError .kInvalidArgument [args.atOrUndefined 1]), isolate) := by
        simp [ErrorCaptureStackTrace, hnone]
      rw [h]
      exact ⟨⟨_, _, rfl⟩, rfl⟩
    · rw [ErrorCaptureStackTrace_rejected c args isolate object T hobj hT hg]
      exact ⟨⟨_, _, rfl⟩, rfl⟩
  refine ⟨hkey.1, hkey.2, ?_, ?_, ?_⟩
  · intro o
    rw [hkey.2]
  · rw [hkey.2]
  · rw [hkey.2]

/-- Witness of C4: the call on a non-extensible object leaves the state as it
was. -/
theorem ErrorCaptureStackTrace_failure_mutates_nothing_witness :
    (ErrorCaptureStackTrace (readingCollaborators Value.undefined Value.undefined)
      plainArguments frozenIsolate).2 = frozenIsolate :=
  (ErrorCaptureStackTrace_failure_mutates_nothing
    (readingCollaborators Value.undefined Value.undefined) plainArguments frozenIsolate
    (Or.inr ⟨3, 3, rfl, rfl, rfl⟩)).2.1

/-- C5 (as amended). When the object passed to `ErrorCaptureStackTrace` is a
global proxy whose map has a hidden prototype, the call works on the global
object that prototype is and never on the proxy: the proxy keeps its map
reference, its property storage and its stack-trace state, its map (when it
is an allocated one) keeps its descriptors, and the call is, outcome and
state, the call with the global object passed in place of the proxy. A global
proxy whose map has no hidden prototype is not redirected, as no object is
that is not a global proxy: the guard is taken on the proxy itself, a
rejection names it, and a call that passes the guard inserts into the map of
the proxy and migrates the proxy. -/
theorem ErrorCaptureStackTrace_global_proxy (c : Collaborators) (args : BuiltinArguments)
    (isolate : Isolate) (p : Ref)
    (hobj : JSObject.cast isolate.heap (args.atOrUndefined 1) = some p)
    (hproxy : isolate.heap.IsJSGlobalProxy p = true) :
    ((isolate.heap.mapOf p).has_hidden_prototype = true →
      (ErrorCaptureStackTrace c args isolate).2.heap.objects p = isolate.heap.objects p ∧
      ((isolate.heap.objects p).map < isolate.heap.next_map →
        (ErrorCaptureStackTrace c args isolate).2.heap.maps (isolate.heap.objects p).map =
          isolate.heap.maps (isolate.heap.objects p).map) ∧
      (∀ T, JSGlobalObject.cast isolate.heap (isolate.heap.mapOf p).prototype = some T →
        T ≠ p ∧
        ∀ args' : BuiltinArguments, args'.atOrUndefined 1 = Value.ref T →
          args'.atOrUndefined 2 = args.atOrUndefined 2 →
          ErrorCaptureStackTrace c args isolate = ErrorCaptureStackTrace c args' isolate)) ∧
    ((isolate.heap.mapOf p).has_hidden_prototype = false →
      globalObjectRedirect isolate.heap p = some p ∧
      (stackIsExtensible c isolate.heap p = false →
        ErrorCaptureStackTrace c args isolate =
          (.error (.NewTypeError .kDefineDisallowed [Value.string "stack", Value.ref p]),
            isolate)) ∧
      (stackIsExtensible c isolate.heap p = true →
        ((ErrorCaptureStackTrace c args isolate).2.heap.objects p).map =
          (Map.CopyInsertDescriptor isolate.heap (isolate.heap.objects p).map
            stackAccessorDescriptor).1 ∧
        ∃ rest, (ErrorCaptureStackTrace c args isolate).2.calls =
          isolate.calls ++
            Call.CopyInsertDescriptor (isolate.heap.objects p).map stackAccessorDescriptor ::
            Call.MigrateToMap p (Map.CopyInsertDescriptor isolate.heap
              (isolate.heap.objects p).map stackAccessorDescriptor).1 ::
            Call.CaptureAndSetDetailedStackTrace p :: rest ∧
          (rest = [] ∨
            rest = [.CaptureAndSetSimpleStackTrace p (some (args.atOrUndefined 2))]))) ∧
    (∀ o, isolate.heap.IsJSGlobalProxy o = false →
      globalObjectRedirect isolate.heap o = some o) := by
  have hpt : (isolate.heap.mapOf p).instance_type = .JS_GLOBAL_PROXY_TYPE := by
    simpa [Heap.IsJSGlobalProxy] using hproxy
  refine ⟨?_, ?_, ?_⟩
  · intro hhidden
    have hredirect : globalObjectRedirect isolate.heap p =
        JSGlobalObject.cast isolate.heap (isolate.heap.mapOf p).prototype := by
      simp [globalObjectRedirect, hproxy, hhidden]
    have hglobal : ∀ T, JSGlobalObject.cast isolate.heap (isolate.heap.mapOf p).prototype = some T →
        (isolate.heap.mapOf T).instance_type = .JS_GLOBAL_OBJECT_TYPE := by
      intro T hc
      exact JSGlobalObject_cast_instance_type _ _ _ hc
    have hne : ∀ T, JSGlobalObject.cast isolate.heap (isolate.heap.mapOf p).prototype = some T →
        T ≠ p ∧ (isolate.heap.objects p).map ≠ (isolate.heap.objects T).map := by
      intro T hc
      have hg := hglobal T hc
      constructor
      · intro heq
        rw [heq, hpt] at hg
        cases hg
      · intro heq
        unfold Heap.mapOf at hg hpt
        rw [← heq, hpt] at hg
        cases hg
    have hstate : ∀ T, globalObjectRedirect isolate.heap p = some T →
        stackIsExtensible c isolate.heap T = false →
        (ErrorCaptureStackTrace c args isolate).2 = isolate := by
      intro T hT hg
      rw [ErrorCaptureStackTrace_rejected c args isolate p T hobj hT hg]
    refine ⟨?_, ?_, ?_⟩
    · rcases hT : globalObjectRedirect isolate.heap p with _ | T
      · have : (ErrorCaptureStackTrace c args isolate).2 = isolate := by
          simp [ErrorCaptureStackTrace, hobj, hT]
        rw [this]
      · cases hg : stackIsExtensible c isolate.heap T with
        | false => rw [hstate T hT hg]
        | true =>
          have hc : JSGlobalObject.cast isolate.heap (isolate.heap.mapOf p).prototype = some T := by
            rw [← hredirect]
            exact hT
          exact (ErrorCaptureStackTrace_passed_frame c args isolate p T hobj hT hg).1 p
            (fun h => (hne T hc).1 h.symm)
    · intro hlt
      rcases hT : globalObjectRedirect isolate.heap p with _ | T
      · have : (ErrorCaptureStackTrace c args isolate).2 = isolate := by
          simp [ErrorCaptureStackTrace, hobj, hT]
        rw [this]
      · cases hg : stackIsExtensible c isolate.heap T with
        | false => rw [hstate T hT hg]
        | true =>
          have hc : JSGlobalObject.cast isolate.heap (isolate.heap.mapOf p).prototype = some T := by
            rw [← hredirect]
            exact hT
          rw [(ErrorCaptureStackTrace_passed_frame c args isolate p T hobj hT hg).2.1]
          exact CopyInsertDescriptor_maps_other _ _ _ _ (hne T hc).2 (Nat.ne_of_lt hlt)
    · intro T hc
      refine ⟨(hne T hc).1, ?_⟩
      intro args' h1 h2
      have hT : globalObjectRedirect isolate.heap p = some T := by
        rw [hredirect]
        exact hc
      have hobj' : JSObject.cast isolate.heap (args'.atOrUndefined 1) = some T := by
        rw [h1]
        simp [JSObject.cast, hglobal T hc]
      have hT' : globalObjectRedirect isolate.heap T = some T := by
        simp [globalObjectRedirect, Heap.IsJSGlobalProxy, hglobal T hc]
      cases hg : stackIsExtensible c isolate.heap T with
      | false =>
        rw [ErrorCaptureStackTrace_rejected c args isolate p T hobj hT hg,
          ErrorCaptureStackTrace_rejected c args' isolate T T hobj' hT' hg]
      | true =>
        rw [ErrorCaptureStackTrace_passed c args isolate p T hobj hT hg,
          ErrorCaptureStackTrace_passed c args' isolate T T hobj' hT' hg, h2]

  · intro hhidden
    have hT : globalObjectRedirect isolate.heap p = some p := by
      simp [globalObjectRedirect, hproxy, hhidden]
    refine ⟨hT, ?_, ?_⟩
    · intro hg
      exact ErrorCaptureStackTrace_rejected c args isolate p p hobj hT hg
    · intro hg
      exact ⟨(ErrorCaptureStackTrace_passed_frame c args isolate p p hobj hT hg).2.2,
        ErrorCaptureStackTrace_passed_calls c args isolate p p hobj hT hg⟩
  · intro o ho
    simp [globalObjectRedirect, ho]

/-- Witness of C5: the call on the global proxy 3, whose hidden prototype is
the global object 4, leaves the proxy on map 0 and puts the global object on
the new map 2; the global proxy 3 whose map has no hidden prototype is not
redirected and is itself put on the new map 1. -/
theorem ErrorCaptureStackTrace_global_proxy_witness :
    (ErrorCaptureStackTrace (readingCollaborators Value.undefined Value.undefined)
      plainArguments globalProxyIsolate).2.heap.objects 3 = globalProxyIsolate.heap.objects 3 ∧
    ((ErrorCaptureStackTrace (readingCollaborators Value.undefined Value.undefined)
      plainArguments globalProxyIsolate).2.heap.objects 4).map = 2 ∧
    globalObjectRedirect detachedProxyIsolate.heap 3 = some 3 ∧
    ((ErrorCaptureStackTrace (readingCollaborators Value.undefined Value.undefined)
      plainArguments detachedProxyIsolate).2.heap.objects 3).map = 1 :=
  ⟨((ErrorCaptureStackTrace_global_proxy (readingCollaborators Value.undefined Value.undefined)
    plainArguments globalProxyIsolate 3 rfl rfl).1 rfl).1, rfl,
   ((ErrorCaptureStackTrace_global_proxy (readingCollaborators Value.undefined Value.undefined)
    plainArguments detachedProxyIsolate 3 rfl rfl).2.1 rfl).1,
   (((ErrorCaptureStackTrace_global_proxy (readingCollaborators Value.undefined Value.undefined)
    plainArguments detachedProxyIsolate 3 rfl rfl).2.1 rfl).2.2 rfl).1.trans rfl⟩

/-- Counterexample to C5 as stated: object 3 is a global proxy whose map has
no hidden prototype; the call succeeds and has moved the proxy itself from map
0 to the new map 1, whose descriptors hold the "stack" accessor. -/
theorem ErrorCaptureStackTrace_global_proxy_counterexample :
    detachedProxyIsolate.heap.IsJSGlobalProxy 3 = true ∧
    plainArguments.atOrUndefined 1 = Value.ref 3 ∧
    (detachedProxyIsolate.heap.objects 3).map = 0 ∧
    (detachedProxyIsolate.heap.mapOf 3).descriptors = [] ∧
    (ErrorCaptureStackTrace (readingCollaborators Value.undefined Value.undefined)
      plainArguments detachedProxyIsolate).1 = .ok Value.undefined ∧
    ((ErrorCaptureStackTrace (readingCollaborators Value.undefined Value.undefined)
      plainArguments detachedProxyIsolate).2.heap.objects 3).map = 1 ∧
    ((ErrorCaptureStackTrace (readingCollaborators Value.undefined Value.undefined)
      plainArguments detachedProxyIsolate).2.heap.mapOf 3).descriptors =
        [stackAccessorDescriptor] :=
  ⟨rfl, rfl, rfl, rfl, rfl, rfl, rfl⟩

/-- C6 (as amended). On a call of `ErrorCaptureStackTrace` that passes the
guard the accessor is installed by one insertion: one `CopyInsertDescriptor`
of the accessor descriptor with key "stack" and attributes `DONT_ENUM` (not
enumerable, writable, configurable) on the map the target has, then one
`MigrateToMap` of the target to the map returned, on which the target then is;
then the detailed capture is run on the target. If it throws, the call fails
with that exception and no simple capture is run. If it succeeds, the simple
capture is run on the target with the caller argument (undefined when not
passed), and the call returns undefined when that succeeds and fails with its
exception when it throws. -/
theorem ErrorCaptureStackTrace_installs (c : Collaborators) (args : BuiltinArguments)
    (isolate : Isolate) (object T : Ref)
    (hobj : JSObject.cast isolate.heap (args.atOrUndefined 1) = some object)
    (hT : globalObjectRedirect isolate.heap object = some T)
    (hg : stackIsExtensible c isolate.heap T = true) :
    (stackAccessorDescriptor.key = "stack" ∧
      (∃ info, stackAccessorDescriptor.kind = .ACCESSOR_CONSTANT info) ∧
      stackAccessorDescriptor.attributes = DONT_ENUM ∧
      DONT_ENUM.enumerable = false ∧ DONT_ENUM.writable = true ∧
      DONT_ENUM.configurable = true) ∧
    (args.values.length ≤ 2 → args.atOrUndefined 2 = Value.undefined) ∧
    ((ErrorCaptureStackTrace c args isolate).2.heap.objects T).map =
      (Map.CopyInsertDescriptor isolate.heap (isolate.heap.objects T).map
        stackAccessorDescriptor).1 ∧
    (∀ v, c.CaptureDetailed (addStackAccessors T isolate).heap T = .error v →
      (ErrorCaptureStackTrace c args isolate).1 = .error (.Pending v) ∧
      (ErrorCaptureStackTrace c args isolate).2.calls = isolate.calls ++
        [.CopyInsertDescriptor (isolate.heap.objects T).map stackAccessorDescriptor,
         .MigrateToMap T (Map.CopyInsertDescriptor isolate.heap (isolate.heap.objects T).map
            stackAccessorDescriptor).1,
         .CaptureAndSetDetailedStackTrace T]) ∧
    (∀ frames, c.CaptureDetailed (addStackAccessors T isolate).heap T = .ok frames →
      (ErrorCaptureStackTrace c args isolate).2.calls = isolate.calls ++
        [.CopyInsertDescriptor (isolate.heap.objects T).map stackAccessorDescriptor,
         .MigrateToMap T (Map.CopyInsertDescriptor isolate.heap (isolate.heap.objects T).map
            stackAccessorDescriptor).1,
         .CaptureAndSetDetailedStackTrace T,
         .CaptureAndSetSimpleStackTrace T (some (args.atOrUndefined 2))] ∧
      (∀ text, c.CaptureSimple ((addStackAccessors T isolate).heap.setDetailed T frames) T
          (some (args.atOrUndefined 2)) = .ok text →
        (ErrorCaptureStackTrace c args isolate).1 = .ok Value.undefined) ∧
      (∀ v, c.CaptureSimple ((addStackAccessors T isolate).heap.setDetailed T frames) T
          (some (args.atOrUndefined 2)) = .error v →
        (ErrorCaptureStackTrace c args isolate).1 = .error (.Pending v))) := by
  refine ⟨⟨rfl, ⟨_, rfl⟩, rfl, rfl, rfl, rfl⟩, ?_,
    (ErrorCaptureStackTrace_passed_frame c args isolate object T hobj hT hg).2.2, ?_, ?_⟩
  · intro hlen
    unfold BuiltinArguments.atOrUndefined
    rw [List.getD_eq_default _ _ hlen]
  · intro v hd
    rw [ErrorCaptureStackTrace_detailed_throws c args isolate object T v hobj hT hg hd]
    refine ⟨rfl, ?_⟩
    simp [Isolate.record, addStackAccessors_calls]
  · intro frames hd
    refine ⟨?_, ?_, ?_⟩
    · cases hs : c.CaptureSimple ((addStackAccessors T isolate).heap.setDetailed T frames) T
          (some (args.atOrUndefined 2)) with
      | error v =>
        rw [ErrorCaptureStackTrace_simple_throws c args isolate object T frames v hobj hT hg
          hd hs]
        simp [Isolate.record, addStackAccessors_calls]
      | ok text =>
        rw [ErrorCaptureStackTrace_succeeds c args isolate object T frames text hobj hT hg
          hd hs]
        simp [addStackAccessors_calls]
    · intro text hs
      rw [ErrorCaptureStackTrace_succeeds c args isolate object T frames text hobj hT hg hd hs]
    · intro v hs
      rw [ErrorCaptureStackTrace_simple_throws c args isolate object T frames v hobj hT hg hd hs]

/-- Witness of C6: the call on the plain object 3 inserts into map 0, migrates
the object to map 1, runs the two captures and returns undefined. -/
theorem ErrorCaptureStackTrace_installs_witness :
    (ErrorCaptureStackTrace (readingCollaborators Value.undefined Value.undefined)
      plainArguments plainIsolate).1 = .ok Value.undefined ∧
    (ErrorCaptureStackTrace (readingCollaborators Value.undefined Value.undefined)
      plainArguments plainIsolate).2.calls =
      [.CopyInsertDescriptor 0 stackAccessorDescriptor, .MigrateToMap 3 1,
       .CaptureAndSetDetailedStackTrace 3,
       .CaptureAndSetSimpleStackTrace 3 (some Value.undefined)] :=
  ⟨((ErrorCaptureStackTrace_installs (readingCollaborators Value.undefined Value.undefined)
      plainArguments plainIsolate 3 3 rfl rfl rfl).2.2.2.2 _ rfl).2.1 "at f" rfl,
   ((ErrorCaptureStackTrace_installs (readingCollaborators Value.undefined Value.undefined)
      plainArguments plainIsolate 3 3 rfl rfl rfl).2.2.2.2 _ rfl).1⟩

/-- Counterexample to C6 as stated: the call on the plain object 3 passes the
guard, its detailed capture throws, and the call neither runs the simple
capture nor returns undefined; the object has been migrated to map 1. -/
theorem ErrorCaptureStackTrace_installs_counterexample :
    stackIsExtensible
      (throwingDetailed (readingCollaborators Value.undefined Value.undefined))
      plainIsolate.heap 3 = true ∧
    (ErrorCaptureStackTrace
      (throwingDetailed (readingCollaborators Value.undefined Value.undefined))
      plainArguments plainIsolate).1 =
      .error (.Pending (Value.string "thrown by the detailed capture")) ∧
    (ErrorCaptureStackTrace
      (throwingDetailed (readingCollaborators Value.undefined Value.undefined))
      plainArguments plainIsolate).2.calls =
      [.CopyInsertDescriptor 0 stackAccessorDescriptor, .MigrateToMap 3 1,
       .CaptureAndSetDetailedStackTrace 3] ∧
    ((ErrorCaptureStackTrace
      (throwingDetailed (readingCollaborators Value.undefined Value.undefined))
      plainArguments plainIsolate).2.heap.objects 3).map = 1 :=
  ⟨rfl, rfl, rfl, rfl⟩

/-! ## Theorems: `ErrorConstructor` -/

/-- C8. `ErrorConstructor` installs the message exactly when it is given. With
`err` the object created: for a message that is not undefined and whose
`ToString` succeeds with `s` (on a heap whose transition tables are sound),
after the call `err` owns "message" as a data property with value `s` that is
not enumerable, writable and configurable, and `err` is what the call returns
(it returns it when the bootstrapper is active, and otherwise returns it or
fails with the exception of a capture); `ToString` of a string such as "boom"
is that string. For the undefined message the own properties of `err` are
those it was created with, so none at "message" when it was created without,
and no `ToString` call is made. -/
theorem ErrorConstructor_message (c : Collaborators) (args : BuiltinArguments)
    (isolate : Isolate) (err : Ref) (h1 : Heap)
    (hnew : c.New isolate.heap args.target (effectiveNewTarget args) = (.ok err, h1)) :
    (∀ (s : String) (i2 : Isolate),
      args.atOrUndefined 1 ≠ Value.undefined →
      Object.ToString c (args.atOrUndefined 1)
        { heap := h1, bootstrapper_active := isolate.bootstrapper_active,
          calls := isolate.calls ++ [.New args.target (effectiveNewTarget args)] } =
        (.ok s, i2) →
      i2.heap.TransitionsSound →
      (ErrorConstructor c args isolate).2.heap.GetOwnProperty err "message" =
        some ({ key := "message", kind := .DATA, attributes := DONT_ENUM }, Value.string s) ∧
      DONT_ENUM.enumerable = false ∧ DONT_ENUM.writable = true ∧
      DONT_ENUM.configurable = true ∧
      ((ErrorConstructor c args isolate).1 = .ok (Value.ref err) ∨
        ∃ v, (ErrorConstructor c args isolate).1 = .error (.Pending v)) ∧
      (isolate.bootstrapper_active = true →
        (ErrorConstructor c args isolate).1 = .ok (Value.ref err))) ∧
    (∀ (s : String) (i : Isolate),
      Object.ToString c (Value.string s) i = (.ok s, i.record (.ToString (Value.string s)))) ∧
    (args.atOrUndefined 1 = Value.undefined →
      (∀ key, (ErrorConstructor c args isolate).2.heap.GetOwnProperty err key =
        h1.GetOwnProperty err key) ∧
      (h1.GetOwnProperty err "message" = none →
        (ErrorConstructor c args isolate).2.heap.GetOwnProperty err "message" = none) ∧
      (∃ rest, (ErrorConstructor c args isolate).2.calls = isolate.calls ++ rest ∧
        ∀ v, Call.ToString v ∉ rest) ∧
      ((ErrorConstructor c args isolate).1 = .ok (Value.ref err) ∨
        ∃ v, (ErrorConstructor c args isolate).1 = .error (.Pending v))) := by
  have hEC := ErrorConstructor_of_New_ok c args isolate err h1 hnew
  refine ⟨?_, fun s i => Object_ToString_string c s i, ?_⟩
  · intro s i2 hmsg hstr hsound
    have hdef := defineMessage_ok c err (args.atOrUndefined 1) _ i2 s hmsg hstr
    rw [hdef] at hEC
    simp only at hEC
    rw [hEC]
    have hframe := captureUnlessSettingUp_frame c err
      { heap := i2.heap.SetOwnPropertyIgnoreAttributes err "message" (Value.string s) DONT_ENUM
        bootstrapper_active := isolate.bootstrapper_active
        calls := (isolate.calls ++ [.New args.target (effectiveNewTarget args)]) ++
          [.ToString (args.atOrUndefined 1),
           .SetOwnPropertyIgnoreAttributes err "message" (Value.string s) DONT_ENUM] }
    refine ⟨?_, rfl, rfl, rfl, hframe.1, ?_⟩
    · rw [hframe.2.1]
      exact SetOwnPropertyIgnoreAttributes_GetOwnProperty i2.heap err "message"
        (Value.string s) DONT_ENUM hsound
    · intro hb
      have hact : ∀ j : Isolate, j.bootstrapper_active = true →
          (captureUnlessSettingUp c err j).1 = .ok (Value.ref err) := by
        intro j hj
        rw [captureUnlessSettingUp_active c err j hj]
      refine hact _ ?_
      exact hb
  · intro hmsg
    rw [hmsg, defineMessage_undefined] at hEC
    simp only at hEC
    rw [hEC]
    have hframe := captureUnlessSettingUp_frame c err
      { heap := h1, bootstrapper_active := isolate.bootstrapper_active,
        calls := isolate.calls ++ [.New args.target (effectiveNewTarget args)] }
    refine ⟨hframe.2.1 err, ?_, ?_, hframe.1⟩
    · intro hnone
      rw [hframe.2.1 err, hnone]
    · rcases hframe.2.2 with ⟨rest, hcalls, hrest⟩
      refine ⟨.New args.target (effectiveNewTarget args) :: rest, ?_, ?_⟩
      · rw [hcalls]
        simp
      · intro v hv
        rcases List.mem_cons.mp hv with h | h
        · cases h
        · rcases hrest _ h with h' | h' <;> cases h'

/-- Witness of C8: constructing with the message "boom" returns the created
object 7, which then owns "message" with the value "boom" and the attributes
`DONT_ENUM`. -/
theorem ErrorConstructor_message_witness :
    (ErrorConstructor (readingCollaborators Value.undefined Value.undefined)
      (errorArguments (Value.string "boom")) plainIsolate).1 = .ok (Value.ref 7) ∧
    (ErrorConstructor (readingCollaborators Value.undefined Value.undefined)
      (errorArguments (Value.string "boom")) plainIsolate).2.heap.GetOwnProperty 7 "message" =
      some ({ key := "message", kind := .DATA, attributes := DONT_ENUM },
        Value.string "boom") :=
  ⟨rfl,
   ((ErrorConstructor_message (readingCollaborators Value.undefined Value.undefined)
      (errorArguments (Value.string "boom")) plainIsolate 7 plainHeap rfl).1 "boom" _
      (by decide) rfl plainHeap_TransitionsSound).1⟩

/-- C9 (as amended). `ErrorConstructor` gates the captures on the bootstrapper.
With `err` the object created and `j` the state after the message step (which
for a message that is not undefined has recorded the definition of "message"
on `err`): when the bootstrapper is active the call returns `err` in the state
`j`, so no capture is run; when it is not active the detailed capture is run
on `err` first, after the message step; if it throws the call fails with that
exception and the simple capture is not run, and if it succeeds the simple
capture is run next on `err`, without a caller. -/
theorem ErrorConstructor_capture_gate (c : Collaborators) (args : BuiltinArguments)
    (isolate : Isolate) (err : Ref) (h1 : Heap) (j : Isolate)
    (hnew : c.New isolate.heap args.target (effectiveNewTarget args) = (.ok err, h1))
    (hdef : defineMessage c err (args.atOrUndefined 1)
      { heap := h1, bootstrapper_active := isolate.bootstrapper_active,
        calls := isolate.calls ++ [.New args.target (effectiveNewTarget args)] } = (.ok (), j)) :
    (args.atOrUndefined 1 = Value.undefined →
      j.calls = isolate.calls ++ [.New args.target (effectiveNewTarget args)]) ∧
    (args.atOrUndefined 1 ≠ Value.undefined → ∃ s,
      j.calls = isolate.calls ++
        [.New args.target (effectiveNewTarget args), .ToString (args.atOrUndefined 1),
         .SetOwnPropertyIgnoreAttributes err "message" (Value.string s) DONT_ENUM]) ∧
    (isolate.bootstrapper_active = true →
      ErrorConstructor c args isolate = (.ok (Value.ref err), j)) ∧
    (isolate.bootstrapper_active = false →
      (∀ v, c.CaptureDetailed j.heap err = .error v →
        (ErrorConstructor c args isolate).1 = .error (.Pending v) ∧
        (ErrorConstructor c args isolate).2.calls =
          j.calls ++ [.CaptureAndSetDetailedStackTrace err]) ∧
      (∀ frames, c.CaptureDetailed j.heap err = .ok frames →
        (ErrorConstructor c args isolate).2.calls =
          j.calls ++ [.CaptureAndSetDetailedStackTrace err,
            .CaptureAndSetSimpleStackTrace err none])) := by
  have hEC := ErrorConstructor_of_New_ok c args isolate err h1 hnew
  rw [hdef] at hEC
  simp only at hEC
  have hst := defineMessage_ok_state c err (args.atOrUndefined 1) _ j hdef
  have hb : j.bootstrapper_active = isolate.bootstrapper_active := hst.1
  refine ⟨?_, ?_, ?_, ?_⟩
  · intro hmsg
    rw [hst.2.1 hmsg]
  · intro hmsg
    rcases hst.2.2 hmsg with ⟨s, hs⟩
    refine ⟨s, ?_⟩
    rw [hs]
    simp
  · intro hact
    rw [hEC, captureUnlessSettingUp_active c err j (hb.trans hact)]
  · intro hact
    constructor
    · intro v hd
      rw [hEC, captureUnlessSettingUp_detailed_throws c err j v (hb.trans hact) hd]
      exact ⟨rfl, rfl⟩
    · intro frames hd
      rw [hEC]
      cases hs : c.CaptureSimple (j.heap.setDetailed err frames) err none with
      | error v =>
        rw [captureUnlessSettingUp_simple_throws c err j frames v (hb.trans hact) hd hs]
      | ok text =>
        rw [captureUnlessSettingUp_succeeds c err j frames text (hb.trans hact) hd hs]

/-- Witness of C9: outside bootstrap, constructing with the message "boom"
records the creation, the coercion, the definition of "message", the detailed
capture and then the simple capture, all on the created object 7. -/
theorem ErrorConstructor_capture_gate_witness :
    (ErrorConstructor (readingCollaborators Value.undefined Value.undefined)
      (errorArguments (Value.string "boom")) plainIsolate).2.calls =
      [.New 1 1, .ToString (Value.string "boom"),
       .SetOwnPropertyIgnoreAttributes 7 "message" (Value.string "boom") DONT_ENUM,
       .CaptureAndSetDetailedStackTrace 7, .CaptureAndSetSimpleStackTrace 7 none] :=
  ((ErrorConstructor_capture_gate (readingCollaborators Value.undefined Value.undefined)
    (errorArguments (Value.string "boom")) plainIsolate 7 plainHeap _ rfl rfl).2.2.2 rfl).2
    _ rfl

/-- Counterexample to C9 as stated: outside bootstrap, constructing with the
message "boom" when the detailed capture throws fails with that exception
after the detailed capture; the simple capture is not run. -/
theorem ErrorConstructor_capture_gate_counterexample :
    plainIsolate.bootstrapper_active = false ∧
    (ErrorConstructor (throwingDetailed (readingCollaborators Value.undefined Value.undefined))
      (errorArguments (Value.string "boom")) plainIsolate).1 =
      .error (.Pending (Value.string "thrown by the detailed capture")) ∧
    (ErrorConstructor (throwingDetailed (readingCollaborators Value.undefined Value.undefined))
      (errorArguments (Value.string "boom")) plainIsolate).2.calls =
      [.New 1 1, .ToString (Value.string "boom"),
       .SetOwnPropertyIgnoreAttributes 7 "message" (Value.string "boom") DONT_ENUM,
       .CaptureAndSetDetailedStackTrace 7] ∧
    Call.CaptureAndSetSimpleStackTrace 7 none ∉
      (ErrorConstructor (throwingDetailed (readingCollaborators Value.undefined Value.undefined))
        (errorArguments (Value.string "boom")) plainIsolate).2.calls := by
  refine ⟨rfl, rfl, rfl, ?_⟩
  have h : (ErrorConstructor
      (throwingDetailed (readingCollaborators Value.undefined Value.undefined))
      (errorArguments (Value.string "boom")) plainIsolate).2.calls =
      [.New 1 1, .ToString (Value.string "boom"),
       .SetOwnPropertyIgnoreAttributes 7 "message" (Value.string "boom") DONT_ENUM,
       .CaptureAndSetDetailedStackTrace 7] := rfl
  rw [h]
  decide

/-- C10. A step of `ErrorConstructor` that fails aborts the call with that
failure. If `JSObject::New` throws, the call fails with that exception having
recorded the creation only, so no coercion and no capture. If `ToString` of
the message fails, the call fails with that failure in the state `ToString`
left, having recorded the creation and the coercion only, so no definition of
"message" and no capture. If the detailed capture throws, the call fails with
that exception and the simple capture is not run; if the simple capture
throws, the call fails with that exception. The call returns a value only as
the created object after the creation, the message step and, outside
bootstrap, the two captures all succeeded. -/
theorem ErrorConstructor_aborts (c : Collaborators) (args : BuiltinArguments)
    (isolate : Isolate) :
    (∀ (v : Value) (h1 : Heap),
      c.New isolate.heap args.target (effectiveNewTarget args) = (.error v, h1) →
      ErrorConstructor c args isolate =
        (.error (.Pending v),
          { heap := h1, bootstrapper_active := isolate.bootstrapper_active,
            calls := isolate.calls ++ [.New args.target (effectiveNewTarget args)] })) ∧
    (∀ (err : Ref) (h1 : Heap) (e : Failure) (i2 : Isolate),
      c.New isolate.heap args.target (effectiveNewTarget args) = (.ok err, h1) →
      args.atOrUndefined 1 ≠ Value.undefined →
      Object.ToString c (args.atOrUndefined 1)
        { heap := h1, bootstrapper_active := isolate.bootstrapper_active,
          calls := isolate.calls ++ [.New args.target (effectiveNewTarget args)] } =
        (.error e, i2) →
      ErrorConstructor c args isolate = (.error e, i2) ∧
      i2.calls = isolate.calls ++
        [.New args.target (effectiveNewTarget args), .ToString (args.atOrUndefined 1)]) ∧
    (∀ (err : Ref) (h1 : Heap) (j : Isolate) (v : Value),
      c.New isolate.heap args.target (effectiveNewTarget args) = (.ok err, h1) →
      defineMessage c err (args.atOrUndefined 1)
        { heap := h1, bootstrapper_active := isolate.bootstrapper_active,
          calls := isolate.calls ++ [.New args.target (effectiveNewTarget args)] } =
        (.ok (), j) →
      isolate.bootstrapper_active = false →
      c.CaptureDetailed j.heap err = .error v →
      ErrorConstructor c args isolate =
        (.error (.Pending v),
          { heap := j.heap, bootstrapper_active := j.bootstrapper_active,
            calls := j.calls ++ [.CaptureAndSetDetailedStackTrace err] })) ∧
    (∀ (err : Ref) (h1 : Heap) (j : Isolate) (frames : List StackFrame) (v : Value),
      c.New isolate.heap args.target (effectiveNewTarget args) = (.ok err, h1) →
      defineMessage c err (args.atOrUndefined 1)
        { heap := h1, bootstrapper_active := isolate.bootstrapper_active,
          calls := isolate.calls ++ [.New args.target (effectiveNewTarget args)] } =
        (.ok (), j) →
      isolate.bootstrapper_active = false →
      c.CaptureDetailed j.heap err = .ok frames →
      c.CaptureSimple (j.heap.setDetailed err frames) err none = .error v →
      (ErrorConstructor c args isolate).1 = .error (.Pending v)) ∧
    (∀ x : Value, (ErrorConstructor c args isolate).1 = .ok x →
      ∃ (err : Ref) (h1 : Heap) (j : Isolate),
        c.New isolate.heap args.target (effectiveNewTarget args) = (.ok err, h1) ∧
        x = Value.ref err ∧
        defineMessage c err (args.atOrUndefined 1)
          { heap := h1, bootstrapper_active := isolate.bootstrapper_active,
            calls := isolate.calls ++ [.New args.target (effectiveNewTarget args)] } =
          (.ok (), j) ∧
        (isolate.bootstrapper_active = false → ∃ frames text,
          c.CaptureDetailed j.heap err = .ok frames ∧
          c.CaptureSimple (j.heap.setDetailed err frames) err none = .ok text)) := by
  refine ⟨?_, ?_, ?_, ?_, ?_⟩
  · intro v h1 hnew
    exact ErrorConstructor_of_New_error c args isolate v h1 hnew
  · intro err h1 e i2 hnew hmsg hstr
    have hEC := ErrorConstructor_of_New_ok c args isolate err h1 hnew
    rw [defineMessage_error c err _ _ i2 e hmsg hstr] at hEC
    refine ⟨hEC, ?_⟩
    have hst := (Object_ToString_state c (args.atOrUndefined 1)
      { heap := h1, bootstrapper_active := isolate.bootstrapper_active,
        calls := isolate.calls ++ [.New args.target (effectiveNewTarget args)] }).1
    rw [hstr] at hst
    simp only at hst
    rw [hst]
    simp
  · intro err h1 j v hnew hdef hact hd
    have hEC := ErrorConstructor_of_New_ok c args isolate err h1 hnew
    rw [hdef] at hEC
    simp only at hEC
    have hb := (defineMessage_ok_state c err (args.atOrUndefined 1) _ j hdef).1
    rw [hEC, captureUnlessSettingUp_detailed_throws c err j v (hb.trans hact) hd]
  · intro err h1 j frames v hnew hdef hact hd hs
    have hEC := ErrorConstructor_of_New_ok c args isolate err h1 hnew
    rw [hdef] at hEC
    simp only at hEC
    have hb := (defineMessage_ok_state c err (args.atOrUndefined 1) _ j hdef).1
    rw [hEC, captureUnlessSettingUp_simple_throws c err j frames v (hb.trans hact) hd hs]
  · intro x hx
    rcases hnew : c.New isolate.heap args.target (effectiveNewTarget args) with ⟨r, h1⟩
    cases r with
    | error v =>
      rw [ErrorConstructor_of_New_error c args isolate v h1 hnew] at hx
      cases hx
    | ok err =>
      have hEC := ErrorConstructor_of_New_ok c args isolate err h1 hnew
      rcases hdef : defineMessage c err (args.atOrUndefined 1)
        { heap := h1, bootstrapper_active := isolate.bootstrapper_active,
          calls := isolate.calls ++ [.New args.target (effectiveNewTarget args)] } with ⟨r, j⟩
      cases r with
      | error e =>
        rw [hdef] at hEC
        simp only at hEC
        rw [hEC] at hx
        cases hx
      | ok u =>
        rw [hdef] at hEC
        simp only at hEC
        have hb := (defineMessage_ok_state c err (args.atOrUndefined 1) _ j hdef).1
        rw [hEC] at hx
        have hxe : x = Value.ref err := by
          rcases (captureUnlessSettingUp_frame c err j).1 with h | ⟨v, h⟩
          · rw [h] at hx
            cases hx
            rfl
          · rw [h] at hx
            cases hx
        refine ⟨err, h1, j, rfl, hxe, hdef, ?_⟩
        intro hact
        cases hd : c.CaptureDetailed j.heap err with
        | error v =>
          rw [captureUnlessSettingUp_detailed_throws c err j v (hb.trans hact) hd] at hx
          cases hx
        | ok frames =>
          cases hs : c.CaptureSimple (j.heap.setDetailed err frames) err none with
          | error v =>
            rw [captureUnlessSettingUp_simple_throws c err j frames v (hb.trans hact) hd hs]
              at hx
            cases hx
          | ok text => exact ⟨frames, text, rfl, hs⟩

/-- Witness of C10: when the creation throws, the call fails with that
exception and has recorded the creation only. -/
theorem ErrorConstructor_aborts_witness :
    ErrorConstructor (throwingNew (readingCollaborators Value.undefined Value.undefined))
      (errorArguments (Value.string "boom")) plainIsolate =
      (.error (.Pending (Value.string "thrown by the creation")),
        { heap := plainHeap, bootstrapper_active := false, calls := [.New 1 1] }) :=
  (ErrorConstructor_aborts (throwingNew (readingCollaborators Value.undefined Value.undefined))
    (errorArguments (Value.string "boom")) plainIsolate).1 _ plainHeap rfl

/-! ## Lemmas: `GetStringPropertyOrDefault` -/

/-- A read that throws makes the lookup fail with that exception. -/
theorem GetStringPropertyOrDefault_of_read_error (c : Collaborators) (recv : Ref)
    (key default_str : String) (isolate : Isolate) (h1 : Heap) (e : Value)
    (hread : c.GetProperty isolate.heap recv key = (.error e, h1)) :
    GetStringPropertyOrDefault c recv key default_str isolate =
      (.error (.Pending e), { isolate.record (.GetProperty recv key) with heap := h1 }) := by
  have hh : (isolate.record (.GetProperty recv key)).heap = isolate.heap := rfl
  simp only [GetStringPropertyOrDefault, JSObject.GetProperty, hh, hread]

/-- A read that yields a value other than undefined makes the lookup the
coercion of that value. -/
theorem GetStringPropertyOrDefault_of_value (c : Collaborators) (recv : Ref)
    (key default_str : String) (isolate : Isolate) (h1 : Heap) (v : Value)
    (hread : c.GetProperty isolate.heap recv key = (.ok v, h1)) (hv : v ≠ Value.undefined) :
    GetStringPropertyOrDefault c recv key default_str isolate =
      Object.ToString c v { isolate.record (.GetProperty recv key) with heap := h1 } := by
  have hh : (isolate.record (.GetProperty recv key)).heap = isolate.heap := rfl
  simp only [GetStringPropertyOrDefault, JSObject.GetProperty, hh, hread, if_neg hv]
  rcases Object.ToString c v { isolate.record (.GetProperty recv key) with heap := h1 } with
    ⟨r, i⟩
  cases r <;> rfl

/-- A lookup records the read and, unless the read threw or yielded
undefined, the coercion after it; it yields a text or fails with a pending
exception. -/
theorem GetStringPropertyOrDefault_shape (c : Collaborators) (recv : Ref)
    (key default_str : String) (isolate : Isolate) :
    ((GetStringPropertyOrDefault c recv key default_str isolate).2.calls =
        isolate.calls ++ [.GetProperty recv key] ∨
      ∃ v, (GetStringPropertyOrDefault c recv key default_str isolate).2.calls =
        isolate.calls ++ [.GetProperty recv key, .ToString v]) ∧
    ((∃ s, (GetStringPropertyOrDefault c recv key default_str isolate).1 = .ok s) ∨
      ∃ v, (GetStringPropertyOrDefault c recv key default_str isolate).1 =
        .error (.Pending v)) := by
  rcases hread : c.GetProperty isolate.heap recv key with ⟨r, h1⟩
  cases r with
  | error e =>
    rw [GetStringPropertyOrDefault_of_read_error c recv key default_str isolate h1 e hread]
    exact ⟨Or.inl rfl, Or.inr ⟨e, rfl⟩⟩
  | ok v =>
    by_cases hv : v = Value.undefined
    · subst hv
      rw [GetStringPropertyOrDefault_of_undefined c recv key default_str isolate h1 hread]
      exact ⟨Or.inl rfl, Or.inl ⟨_, rfl⟩⟩
    · rw [GetStringPropertyOrDefault_of_value c recv key default_str isolate h1 v hread hv]
      refine ⟨Or.inr ⟨v, ?_⟩, Object_ToString_outcome c v _⟩
      rw [(Object_ToString_state c v _).1]
      simp [Isolate.record]

/-- `ErrorPrototypeToString` on an object whose "name" lookup fails. -/
theorem ErrorPrototypeToString_name_fails (c : Collaborators) (args : BuiltinArguments)
    (isolate s1 : Isolate) (receiver : Ref) (e : Failure)
    (hrecv : args.receiver = Value.ref receiver)
    (hname : GetStringPropertyOrDefault c receiver "name" "Error" isolate = (.error e, s1)) :
    ErrorPrototypeToString c args isolate = (.error e, s1) := by
  simp only [ErrorPrototypeToString, hrecv, hname]

/-- `ErrorPrototypeToString` on an object whose "message" lookup fails. -/
theorem ErrorPrototypeToString_message_fails (c : Collaborators) (args : BuiltinArguments)
    (isolate s1 s2 : Isolate) (receiver : Ref) (n : String) (e : Failure)
    (hrecv : args.receiver = Value.ref receiver)
    (hname : GetStringPropertyOrDefault c receiver "name" "Error" isolate = (.ok n, s1))
    (hmsg : GetStringPropertyOrDefault c receiver "message" "" s1 = (.error e, s2)) :
    ErrorPrototypeToString c args isolate = (.error e, s2) := by
  simp only [ErrorPrototypeToString, hrecv, hname, hmsg]

/-- After a "name" lookup that succeeded, `ErrorPrototypeToString` ends in the
state the "message" lookup leaves. -/
theorem ErrorPrototypeToString_state_after_name (c : Collaborators) (args : BuiltinArguments)
    (isolate s1 : Isolate) (receiver : Ref) (n : String)
    (hrecv : args.receiver = Value.ref receiver)
    (hname : GetStringPropertyOrDefault c receiver "name" "Error" isolate = (.ok n, s1)) :
    (ErrorPrototypeToString c args isolate).2 =
      (GetStringPropertyOrDefault c receiver "message" "" s1).2 := by
  rcases hmsg : GetStringPropertyOrDefault c receiver "message" "" s1 with ⟨r, s2⟩
  cases r with
  | error e =>
    rw [ErrorPrototypeToString_message_fails c args isolate s1 s2 receiver n e hrecv hname hmsg]
  | ok m =>
    rw [ErrorPrototypeToString_of_lookups c args isolate s1 s2 receiver n m hrecv hname hmsg]

/-! ## Theorems: `GetStringPropertyOrDefault` and the failures of `ErrorPrototypeToString` -/

/-- C12. `ErrorPrototypeToString` requires a receiver that is a `JSReceiver`:
for every other receiver it fails with the type error
`kIncompatibleMethodReceiver` in the state it was called in, so without a read
of "name" or "message"; for a receiver that is a `JSReceiver` it does not fail
with a type error. -/
theorem ErrorPrototypeToString_receiver_check (c : Collaborators) (args : BuiltinArguments)
    (isolate : Isolate) :
    (args.receiver.IsJSReceiver = false →
      ErrorPrototypeToString c args isolate =
        (.error (.NewTypeError .kIncompatibleMethodReceiver
          [Value.string "Error.prototype.toString", args.receiver]), isolate) ∧
      (ErrorPrototypeToString c args isolate).2.calls = isolate.calls) ∧
    (args.receiver.IsJSReceiver = true →
      ∀ t a, (ErrorPrototypeToString c args isolate).1 ≠ .error (.NewTypeError t a)) := by
  constructor
  · intro h
    have hEq : ErrorPrototypeToString c args isolate =
        (.error (.NewTypeError .kIncompatibleMethodReceiver
          [Value.string "Error.prototype.toString", args.receiver]), isolate) := by
      cases hr : args.receiver with
      | ref r =>
        rw [hr] at h
        simp [Value.IsJSReceiver] at h
      | _ => simp only [ErrorPrototypeToString, hr]
    exact ⟨hEq, by rw [hEq]⟩
  · intro h t a hc
    cases hr : args.receiver with
    | ref receiver =>
      rcases hname : GetStringPropertyOrDefault c receiver "name" "Error" isolate with ⟨r1, s1⟩
      cases r1 with
      | error e =>
        rw [ErrorPrototypeToString_name_fails c args isolate s1 receiver e hr hname] at hc
        rcases (GetStringPropertyOrDefault_shape c receiver "name" "Error" isolate).2 with
          ⟨x, hx⟩ | ⟨v, hv⟩
        · rw [hname] at hx
          cases hx
        · rw [hname] at hv
          simp only at hv hc
          rw [hv] at hc
          cases hc
      | ok n =>
        rcases hmsg : GetStringPropertyOrDefault c receiver "message" "" s1 with ⟨r2, s2⟩
        cases r2 with
        | error e =>
          rw [ErrorPrototypeToString_message_fails c args isolate s1 s2 receiver n e hr hname
            hmsg] at hc
          rcases (GetStringPropertyOrDefault_shape c receiver "message" "" s1).2 with
            ⟨x, hx⟩ | ⟨v, hv⟩
          · rw [hmsg] at hx
            cases hx
          · rw [hmsg] at hv
            simp only at hv hc
            rw [hv] at hc
            cases hc
        | ok m =>
          rw [ErrorPrototypeToString_of_lookups c args isolate s1 s2 receiver n m hr hname
            hmsg] at hc
          simp only at hc
          split at hc
          · cases hc
          · split at hc
            · cases hc
            · split at hc <;> cases hc
    | _ =>
      rw [hr] at h
      simp [Value.IsJSReceiver] at h

/-- Witness of C12: a call whose receiver is undefined fails with the type
error and makes no call. -/
theorem ErrorPrototypeToString_receiver_check_witness :
    ErrorPrototypeToString (readingCollaborators Value.undefined Value.undefined)
      noArguments plainIsolate =
      (.error (.NewTypeError .kIncompatibleMethodReceiver
        [Value.string "Error.prototype.toString", Value.undefined]), plainIsolate) :=
  ((ErrorPrototypeToString_receiver_check
    (readingCollaborators Value.undefined Value.undefined) noArguments plainIsolate).1 rfl).1

/-- C13. `GetStringPropertyOrDefault` returns the default without a call of
`ToString` exactly when the read succeeds with undefined; for every other
value `v` read it is `ToString` of `v`, result and state, so null is coerced
and the empty string is returned as it is read, not replaced by the default;
it fails exactly when the read throws, with that exception, or the read
yields a value other than undefined whose `ToString` fails, with that
failure. -/
theorem GetStringPropertyOrDefault_contract (c : Collaborators) (recv : Ref)
    (key default_str : String) (isolate : Isolate) :
    (((GetStringPropertyOrDefault c recv key default_str isolate).1 = .ok default_str ∧
        (GetStringPropertyOrDefault c recv key default_str isolate).2.calls =
          isolate.calls ++ [.GetProperty recv key]) ↔
      ∃ h1, c.GetProperty isolate.heap recv key = (.ok Value.undefined, h1)) ∧
    (∀ (v : Value) (h1 : Heap), c.GetProperty isolate.heap recv key = (.ok v, h1) →
      v ≠ Value.undefined →
      GetStringPropertyOrDefault c recv key default_str isolate =
        Object.ToString c v { isolate.record (.GetProperty recv key) with heap := h1 }) ∧
    (∀ h1 : Heap, c.GetProperty isolate.heap recv key = (.ok Value.null, h1) →
      (GetStringPropertyOrDefault c recv key default_str isolate).1 =
        (Object.ToString c Value.null
          { isolate.record (.GetProperty recv key) with heap := h1 }).1 ∧
      (GetStringPropertyOrDefault c recv key default_str isolate).2.calls =
        isolate.calls ++ [.GetProperty recv key, .ToString Value.null]) ∧
    (∀ h1 : Heap, c.GetProperty isolate.heap recv key = (.ok (Value.string ""), h1) →
      (GetStringPropertyOrDefault c recv key default_str isolate).1 = .ok "" ∧
      (GetStringPropertyOrDefault c recv key default_str isolate).2.calls =
        isolate.calls ++ [.GetProperty recv key, .ToString (Value.string "")]) ∧
    (∀ e : Failure,
      (GetStringPropertyOrDefault c recv key default_str isolate).1 = .error e ↔
        ((∃ (v : Value) (h1 : Heap),
            c.GetProperty isolate.heap recv key = (.error v, h1) ∧ e = .Pending v) ∨
          ∃ (v : Value) (h1 : Heap),
            c.GetProperty isolate.heap recv key = (.ok v, h1) ∧ v ≠ Value.undefined ∧
            (Object.ToString c v
              { isolate.record (.GetProperty recv key) with heap := h1 }).1 = .error e)) := by
  have hcalls : ∀ (v : Value) (h1 : Heap),
      (Object.ToString c v { isolate.record (.GetProperty recv key) with heap := h1 }).2.calls =
        isolate.calls ++ [.GetProperty recv key, .ToString v] := by
    intro v h1
    rw [(Object_ToString_state c v _).1]
    simp [Isolate.record]
  refine ⟨?_, ?_, ?_, ?_, ?_⟩
  · constructor
    · rintro ⟨hres, hc⟩
      rcases hread : c.GetProperty isolate.heap recv key with ⟨r, h1⟩
      cases r with
      | error e =>
        rw [GetStringPropertyOrDefault_of_read_error c recv key default_str isolate h1 e
          hread] at hres
        cases hres
      | ok v =>
        by_cases hv : v = Value.undefined
        · subst hv
          exact ⟨h1, rfl⟩
        · rw [GetStringPropertyOrDefault_of_value c recv key default_str isolate h1 v hread hv,
            hcalls v h1] at hc
          have := congrArg List.length hc
          simp at this
    · rintro ⟨h1, hread⟩
      rw [GetStringPropertyOrDefault_of_undefined c recv key default_str isolate h1 hread]
      exact ⟨rfl, rfl⟩
  · intro v h1 hread hv
    exact GetStringPropertyOrDefault_of_value c recv key default_str isolate h1 v hread hv
  · intro h1 hread
    rw [GetStringPropertyOrDefault_of_value c recv key default_str isolate h1 Value.null hread
      (by decide)]
    exact ⟨rfl, hcalls Value.null h1⟩
  · intro h1 hread
    rw [GetStringPropertyOrDefault_of_value c recv key default_str isolate h1 (Value.string "")
      hread (by decide)]
    exact ⟨rfl, hcalls (Value.string "") h1⟩
  · intro e
    rcases hread : c.GetProperty isolate.heap recv key with ⟨r, h1⟩
    cases r with
    | error x =>
      rw [GetStringPropertyOrDefault_of_read_error c recv key default_str isolate h1 x hread]
      constructor
      · intro h
        cases h
        exact Or.inl ⟨x, h1, rfl, rfl⟩
      · rintro (⟨v, h2, heq, he⟩ | ⟨v, h2, heq, _, _⟩)
        · cases heq
          rw [he]
        · cases heq
    | ok v =>
      by_cases hv : v = Value.undefined
      · subst hv
        rw [GetStringPropertyOrDefault_of_undefined c recv key default_str isolate h1 hread]
        constructor
        · intro h
          cases h
        · rintro (⟨v, h2, heq, _⟩ | ⟨v, h2, heq, hne, _⟩)
          · cases heq
          · cases heq
            exact absurd rfl hne
      · rw [GetStringPropertyOrDefault_of_value c recv key default_str isolate h1 v hread hv]
        constructor
        · intro h
          exact Or.inr ⟨v, h1, rfl, hv, h⟩
        · rintro (⟨w, h2, heq, _⟩ | ⟨w, h2, heq, _, he⟩)
          · cases heq
          · cases heq
            exact he

/-- Witness of C13: a "name" that reads as undefined gives the default
"Error", and one that reads as null gives the text null converts to. -/
theorem GetStringPropertyOrDefault_contract_witness :
    (GetStringPropertyOrDefault (readingCollaborators Value.undefined Value.undefined)
      3 "name" "Error" plainIsolate).1 = .ok "Error" ∧
    (GetStringPropertyOrDefault (readingCollaborators Value.null Value.undefined)
      3 "name" "Error" plainIsolate).1 = .ok "converted" :=
  ⟨((GetStringPropertyOrDefault_contract (readingCollaborators Value.undefined Value.undefined)
      3 "name" "Error" plainIsolate).1.mpr ⟨plainHeap, rfl⟩).1,
   ((GetStringPropertyOrDefault_contract (readingCollaborators Value.null Value.undefined)
      3 "name" "Error" plainIsolate).2.2.1 plainHeap rfl).1.trans rfl⟩

/-- C17. `ErrorPrototypeToString` on an object fails with the failure of a
lookup, in order. If the "name" lookup fails, the call fails with that failure
in the state that lookup left, which has recorded no read of "message". If
the "name" lookup succeeds, its calls come before the read of "message"; and
if the "message" lookup then fails, the call fails with that failure, also
when the name is the empty text. In neither case a text is returned. -/
theorem ErrorPrototypeToString_failure_order (c : Collaborators) (args : BuiltinArguments)
    (isolate : Isolate) (receiver : Ref) (hrecv : args.receiver = Value.ref receiver) :
    (∀ (e : Failure) (s1 : Isolate),
      GetStringPropertyOrDefault c receiver "name" "Error" isolate = (.error e, s1) →
      ErrorPrototypeToString c args isolate = (.error e, s1) ∧
      ∃ rest, (ErrorPrototypeToString c args isolate).2.calls = isolate.calls ++ rest ∧
        Call.GetProperty receiver "message" ∉ rest) ∧
    (∀ (n : String) (s1 : Isolate),
      GetStringPropertyOrDefault c receiver "name" "Error" isolate = (.ok n, s1) →
      ∃ rest, (ErrorPrototypeToString c args isolate).2.calls =
        s1.calls ++ Call.GetProperty receiver "message" :: rest) ∧
    (∀ (n : String) (s1 s2 : Isolate) (e : Failure),
      GetStringPropertyOrDefault c receiver "name" "Error" isolate = (.ok n, s1) →
      GetStringPropertyOrDefault c receiver "message" "" s1 = (.error e, s2) →
      ErrorPrototypeToString c args isolate = (.error e, s2)) ∧
    (∀ (s1 s2 : Isolate) (e : Failure),
      GetStringPropertyOrDefault c receiver "name" "Error" isolate = (.ok "", s1) →
      GetStringPropertyOrDefault c receiver "message" "" s1 = (.error e, s2) →
      ErrorPrototypeToString c args isolate = (.error e, s2) ∧
      ∀ text, (ErrorPrototypeToString c args isolate).1 ≠ .ok text) := by
  refine ⟨?_, ?_, ?_, ?_⟩
  · intro e s1 hname
    have hEq := ErrorPrototypeToString_name_fails c args isolate s1 receiver e hrecv hname
    refine ⟨hEq, ?_⟩
    rw [hEq]
    rcases (GetStringPropertyOrDefault_shape c receiver "name" "Error" isolate).1 with h | ⟨v, h⟩
    · rw [hname] at h
      exact ⟨_, h, by simp⟩
    · rw [hname] at h
      exact ⟨_, h, by simp⟩
  · intro n s1 hname
    rw [ErrorPrototypeToString_state_after_name c args isolate s1 receiver n hrecv hname]
    rcases (GetStringPropertyOrDefault_shape c receiver "message" "" s1).1 with h | ⟨v, h⟩
    · exact ⟨[], h⟩
    · exact ⟨[.ToString v], h⟩
  · intro n s1 s2 e hname hmsg
    exact ErrorPrototypeToString_message_fails c args isolate s1 s2 receiver n e hrecv hname hmsg
  · intro s1 s2 e hname hmsg
    have hEq := ErrorPrototypeToString_message_fails c args isolate s1 s2 receiver "" e hrecv
      hname hmsg
    refine ⟨hEq, ?_⟩
    intro text hc
    rw [hEq] at hc
    cases hc

/-- Witness of C17: when the read of "name" throws, the call fails with that
exception after that one read. -/
theorem ErrorPrototypeToString_failure_order_witness :
    ErrorPrototypeToString
      (throwingRead "name" (readingCollaborators Value.undefined (Value.string "x")))
      plainArguments plainIsolate =
      (.error (.Pending (Value.string "thrown by the read")),
        { heap := plainHeap, bootstrapper_active := false,
          calls := [.GetProperty 3 "name"] }) :=
  ((ErrorPrototypeToString_failure_order
    (throwingRead "name" (readingCollaborators Value.undefined (Value.string "x")))
    plainArguments plainIsolate 3 rfl).1 _ _ rfl).1

/-! ## Lemmas and theorems: the new target of `ErrorConstructor` -/

/-- The message step records no creation. -/
theorem defineMessage_calls (c : Collaborators) (err : Ref) (msg : Value) (isolate : Isolate) :
    ∃ rest, (defineMessage c err msg isolate).2.calls = isolate.calls ++ rest ∧
      ∀ t n, Call.New t n ∉ rest := by
  by_cases hmsg : msg = Value.undefined
  · subst hmsg
    rw [defineMessage_undefined]
    exact ⟨[], by simp, by simp⟩
  · rcases hstr : Object.ToString c msg isolate with ⟨r, i2⟩
    have hst := (Object_ToString_state c msg isolate).1
    rw [hstr] at hst
    simp only at hst
    cases r with
    | error e =>
      rw [defineMessage_error c err msg isolate i2 e hmsg hstr]
      exact ⟨[.ToString msg], hst, by simp⟩
    | ok s =>
      rw [defineMessage_ok c err msg isolate i2 s hmsg hstr]
      exact ⟨_, rfl, by simp⟩

/-- After a creation that succeeded, the call records no further creation and
returns, if it returns, the object created. -/
theorem ErrorConstructor_after_New (c : Collaborators) (args : BuiltinArguments)
    (isolate : Isolate) (err : Ref) (h1 : Heap)
    (hnew : c.New isolate.heap args.target (effectiveNewTarget args) = (.ok err, h1)) :
    (∃ rest, (ErrorConstructor c args isolate).2.calls =
        isolate.calls ++ Call.New args.target (effectiveNewTarget args) :: rest ∧
      ∀ t n, Call.New t n ∉ rest) ∧
    (∀ x, (ErrorConstructor c args isolate).1 = .ok x → x = Value.ref err) := by
  have hEC := ErrorConstructor_of_New_ok c args isolate err h1 hnew
  rcases defineMessage_calls c err (args.atOrUndefined 1)
    { heap := h1, bootstrapper_active := isolate.bootstrapper_active,
      calls := isolate.calls ++ [.New args.target (effectiveNewTarget args)] } with
    ⟨rest1, hc1, hn1⟩
  rcases hdef : defineMessage c err (args.atOrUndefined 1)
    { heap := h1, bootstrapper_active := isolate.bootstrapper_active,
      calls := isolate.calls ++ [.New args.target (effectiveNewTarget args)] } with ⟨r, j⟩
  rw [hdef] at hEC hc1
  simp only at hc1
  cases r with
  | error e =>
    simp only at hEC
    rw [hEC]
    refine ⟨⟨rest1, ?_, hn1⟩, ?_⟩
    · rw [hc1]
      simp
    · intro x hx
      cases hx
  | ok u =>
    simp only at hEC
    rw [hEC]
    rcases captureUnlessSettingUp_frame c err j with ⟨hres, _, rest2, hc2, hn2⟩
    refine ⟨⟨rest1 ++ rest2, ?_, ?_⟩, ?_⟩
    · rw [hc2, hc1]
      simp
    · intro t n hmem
      rcases List.mem_append.mp hmem with h | h
      · exact hn1 t n h
      · rcases hn2 _ h with h' | h' <;> cases h'
    · intro x hx
      rcases hres with h | ⟨v, h⟩
      · rw [h] at hx
        cases hx
        rfl
      · rw [h] at hx
        cases hx

/-- C11. `ErrorConstructor` resolves the new target before it creates the
object: it is the target when `args.new_target()` is not a receiver, so when
it is undefined, and the new target passed otherwise. The creation with that
target and new target is the first call made and the only creation, and a
value the call returns is the object that creation yielded. -/
theorem ErrorConstructor_new_target (c : Collaborators) (args : BuiltinArguments)
    (isolate : Isolate) :
    (args.new_target.IsJSReceiver = false → effectiveNewTarget args = args.target) ∧
    (args.new_target = Value.undefined → effectiveNewTarget args = args.target) ∧
    (∀ r, args.new_target = Value.ref r →
      args.new_target.IsJSReceiver = true ∧ effectiveNewTarget args = r) ∧
    (∃ rest, (ErrorConstructor c args isolate).2.calls =
        isolate.calls ++ Call.New args.target (effectiveNewTarget args) :: rest ∧
      ∀ t n, Call.New t n ∉ rest) ∧
    (∀ x, (ErrorConstructor c args isolate).1 = .ok x →
      ∃ (err : Ref) (h1 : Heap),
        c.New isolate.heap args.target (effectiveNewTarget args) = (.ok err, h1) ∧
        x = Value.ref err) := by
  refine ⟨?_, ?_, ?_, ?_, ?_⟩
  · intro h
    cases hn : args.new_target with
    | ref r =>
      rw [hn] at h
      simp [Value.IsJSReceiver] at h
    | _ => simp only [effectiveNewTarget, hn]
  · intro h
    simp only [effectiveNewTarget, h]
  · intro r h
    constructor
    · rw [h]
      rfl
    · simp only [effectiveNewTarget, h]
  · rcases hnew : c.New isolate.heap args.target (effectiveNewTarget args) with ⟨r, h1⟩
    cases r with
    | error v =>
      rw [ErrorConstructor_of_New_error c args isolate v h1 hnew]
      exact ⟨[], rfl, by simp⟩
    | ok err => exact (ErrorConstructor_after_New c args isolate err h1 hnew).1
  · intro x hx
    rcases hnew : c.New isolate.heap args.target (effectiveNewTarget args) with ⟨r, h1⟩
    cases r with
    | error v =>
      rw [ErrorConstructor_of_New_error c args isolate v h1 hnew] at hx
      cases hx
    | ok err =>
      exact ⟨err, h1, rfl, (ErrorConstructor_after_New c args isolate err h1 hnew).2 x hx⟩

/-- Witness of C11: constructing through the function 1 with the new target 2
creates from 1 and 2; without a distinct new target it creates from 1 and 1. -/
theorem ErrorConstructor_new_target_witness :
    effectiveNewTarget subclassArguments = 2 ∧
    effectiveNewTarget (errorArguments Value.undefined) = 1 ∧
    (ErrorConstructor (readingCollaborators Value.undefined Value.undefined)
      subclassArguments plainIsolate).2.calls =
      [.New 1 2, .CaptureAndSetDetailedStackTrace 7, .CaptureAndSetSimpleStackTrace 7 none] :=
  ⟨((ErrorConstructor_new_target (readingCollaborators Value.undefined Value.undefined)
      subclassArguments plainIsolate).2.2.1 2 rfl).2,
   (ErrorConstructor_new_target (readingCollaborators Value.undefined Value.undefined)
      (errorArguments Value.undefined) plainIsolate).2.1 rfl,
   rfl⟩

/-! ## Lemmas and theorems: late failures and the lookup of `ErrorCaptureStackTrace` -/

/-- C18. `ErrorCaptureStackTrace` does not roll back on a late failure. On a
call that passes the guard: if the detailed capture throws, the call fails
with that exception, the simple capture is not run, and the target is on the
map the insertion returned; if the detailed capture succeeds and the simple
capture throws, the call fails with that exception and the target is on that
map as well; and on a heap whose transition tables are sound the descriptors
of that map are those of the target's old map plus the "stack" accessor. -/
theorem ErrorCaptureStackTrace_no_rollback (c : Collaborators) (args : BuiltinArguments)
    (isolate : Isolate) (object T : Ref)
    (hobj : JSObject.cast isolate.heap (args.atOrUndefined 1) = some object)
    (hT : globalObjectRedirect isolate.heap object = some T)
    (hg : stackIsExtensible c isolate.heap T = true) :
    (∀ v, c.CaptureDetailed (addStackAccessors T isolate).heap T = .error v →
      (ErrorCaptureStackTrace c args isolate).1 = .error (.Pending v) ∧
      ((ErrorCaptureStackTrace c args isolate).2.heap.objects T).map =
        (Map.CopyInsertDescriptor isolate.heap (isolate.heap.objects T).map
          stackAccessorDescriptor).1 ∧
      (ErrorCaptureStackTrace c args isolate).2.calls = isolate.calls ++
        [.CopyInsertDescriptor (isolate.heap.objects T).map stackAccessorDescriptor,
         .MigrateToMap T (Map.CopyInsertDescriptor isolate.heap (isolate.heap.objects T).map
            stackAccessorDescriptor).1,
         .CaptureAndSetDetailedStackTrace T]) ∧
    (∀ frames v, c.CaptureDetailed (addStackAccessors T isolate).heap T = .ok frames →
      c.CaptureSimple ((addStackAccessors T isolate).heap.setDetailed T frames) T
        (some (args.atOrUndefined 2)) = .error v →
      (ErrorCaptureStackTrace c args isolate).1 = .error (.Pending v) ∧
      ((ErrorCaptureStackTrace c args isolate).2.heap.objects T).map =
        (Map.CopyInsertDescriptor isolate.heap (isolate.heap.objects T).map
          stackAccessorDescriptor).1) ∧
    (isolate.heap.TransitionsSound →
      ((ErrorCaptureStackTrace c args isolate).2.heap.mapOf T).descriptors =
        (isolate.heap.mapOf T).descriptors ++ [stackAccessorDescriptor] ∧
      stackAccessorDescriptor.key = "stack") := by
  have hframe := ErrorCaptureStackTrace_passed_frame c args isolate object T hobj hT hg
  refine ⟨?_, ?_, ?_⟩
  · intro v hd
    refine ⟨?_, hframe.2.2, ?_⟩
    · rw [ErrorCaptureStackTrace_detailed_throws c args isolate object T v hobj hT hg hd]
    · rw [ErrorCaptureStackTrace_detailed_throws c args isolate object T v hobj hT hg hd]
      simp [Isolate.record, addStackAccessors_calls]
  · intro frames v hd hs
    refine ⟨?_, hframe.2.2⟩
    rw [ErrorCaptureStackTrace_simple_throws c args isolate object T frames v hobj hT hg hd hs]
  · intro hsound
    refine ⟨?_, rfl⟩
    unfold Heap.mapOf
    rw [hframe.2.2, hframe.2.1]
    exact CopyInsertDescriptor_descriptors isolate.heap (isolate.heap.objects T).map
      stackAccessorDescriptor hsound

/-- Witness of C18: when the detailed capture throws on the plain object 3,
the call fails and the object is on the new map 1 with the "stack" accessor. -/
theorem ErrorCaptureStackTrace_no_rollback_witness :
    (ErrorCaptureStackTrace
      (throwingDetailed (readingCollaborators Value.undefined Value.undefined))
      plainArguments plainIsolate).1 =
      .error (.Pending (Value.string "thrown by the detailed capture")) ∧
    ((ErrorCaptureStackTrace
      (throwingDetailed (readingCollaborators Value.undefined Value.undefined))
      plainArguments plainIsolate).2.heap.mapOf 3).descriptors = [stackAccessorDescriptor] :=
  ⟨((ErrorCaptureStackTrace_no_rollback
      (throwingDetailed (readingCollaborators Value.undefined Value.undefined))
      plainArguments plainIsolate 3 3 rfl rfl rfl).1 _ rfl).1,
   ((ErrorCaptureStackTrace_no_rollback
      (throwingDetailed (readingCollaborators Value.undefined Value.undefined))
      plainArguments plainIsolate 3 3 rfl rfl rfl).2.2 plainHeap_TransitionsSound).1⟩

/-- C19. In `ErrorCaptureStackTrace` a lookup of the own "stack" that yields no
result (`Nothing`) or false counts as no such own property: whatever the
descriptor holds, the verdict of the guard is the extensible flag of the
target; an extensible target then goes on to the insertion and the call does
not fail with a type error, and a target that is not extensible is rejected. -/
theorem ErrorCaptureStackTrace_lookup_without_result (c : Collaborators)
    (args : BuiltinArguments) (isolate : Isolate) (object T : Ref)
    (hobj : JSObject.cast isolate.heap (args.atOrUndefined 1) = some object)
    (hT : globalObjectRedirect isolate.heap object = some T)
    (hlookup : (c.GetOwnPropertyDescriptor isolate.heap T "stack").1 = none ∨
      (c.GetOwnPropertyDescriptor isolate.heap T "stack").1 = some false) :
    stackIsExtensible c isolate.heap T = JSObject.IsExtensible isolate.heap T ∧
    (JSObject.IsExtensible isolate.heap T = true →
      (∃ rest, (ErrorCaptureStackTrace c args isolate).2.calls =
        isolate.calls ++
          Call.CopyInsertDescriptor (isolate.heap.objects T).map stackAccessorDescriptor ::
          Call.MigrateToMap T (Map.CopyInsertDescriptor isolate.heap
            (isolate.heap.objects T).map stackAccessorDescriptor).1 :: rest) ∧
      ∀ t a, (ErrorCaptureStackTrace c args isolate).1 ≠ .error (.NewTypeError t a)) ∧
    (JSObject.IsExtensible isolate.heap T = false →
      ErrorCaptureStackTrace c args isolate =
        (.error (.NewTypeError .kDefineDisallowed [Value.string "stack", Value.ref T]),
          isolate)) := by
  have hverdict : stackIsExtensible c isolate.heap T = JSObject.IsExtensible isolate.heap T := by
    unfold stackIsExtensible
    rcases hlookup with h | h <;> cases hext : JSObject.IsExtensible isolate.heap T <;>
      simp [h]
  refine ⟨hverdict, ?_, ?_⟩
  · intro hext
    have hg : stackIsExtensible c isolate.heap T = true := hverdict.trans hext
    constructor
    · rcases ErrorCaptureStackTrace_passed_calls c args isolate object T hobj hT hg with
        ⟨rest, hc, _⟩
      exact ⟨_, hc⟩
    · intro t a hc
      rcases ErrorCaptureStackTrace_passed_outcome c args isolate object T hobj hT hg with
        h | ⟨v, h⟩
      · rw [h] at hc
        cases hc
      · rw [h] at hc
        cases hc
  · intro hext
    exact ErrorCaptureStackTrace_rejected c args isolate object T hobj hT (hverdict.trans hext)

/-- Witness of C19: with a lookup that yields no result and a descriptor whose
flags are all false, the call on the extensible object 3 installs the
accessor and returns undefined. -/
theorem ErrorCaptureStackTrace_lookup_without_result_witness :
    (ErrorCaptureStackTrace (failingLookup (readingCollaborators Value.undefined Value.undefined))
      plainArguments plainIsolate).1 = .ok Value.undefined ∧
    stackIsExtensible (failingLookup (readingCollaborators Value.undefined Value.undefined))
      plainIsolate.heap 3 = true :=
  ⟨rfl,
   (ErrorCaptureStackTrace_lookup_without_result
      (failingLookup (readingCollaborators Value.undefined Value.undefined))
      plainArguments plainIsolate 3 3 rfl rfl (Or.inl rfl)).1.trans rfl⟩

/-! ## Lemmas: memoization and migration -/

/-- An insertion whose transition is recorded returns the recorded child and
leaves the heap as it is. -/
theorem CopyInsertDescriptor_of_lookup (h : Heap) (map : MapRef) (d : Descriptor)
    (child : MapRef) (hl : (h.maps map).transitions.lookup d = some child) :
    Map.CopyInsertDescriptor h map d = (child, h) := by
  simp only [Map.CopyInsertDescriptor, hl]

/-- After an insertion on an allocated map the transition is recorded in it. -/
theorem CopyInsertDescriptor_lookup_after (h : Heap) (map : MapRef) (d : Descriptor)
    (hmap : map ≠ h.next_map) :
    ((Map.CopyInsertDescriptor h map d).2.maps map).transitions.lookup d =
      some (Map.CopyInsertDescriptor h map d).1 := by
  cases hl : (h.maps map).transitions.lookup d with
  | some child =>
    rw [CopyInsertDescriptor_of_lookup h map d child hl]
    exact hl
  | none =>
    simp only [Map.CopyInsertDescriptor, hl, Function.update_noteq hmap, Function.update_same,
      List.lookup, beq_self_eq_true]

/-- An insertion on an allocated map leaves the descriptors of that map. -/
theorem CopyInsertDescriptor_parent_descriptors (h : Heap) (map : MapRef) (d : Descriptor)
    (hmap : map ≠ h.next_map) :
    ((Map.CopyInsertDescriptor h map d).2.maps map).descriptors = (h.maps map).descriptors := by
  cases hl : (h.maps map).transitions.lookup d with
  | some child => rw [CopyInsertDescriptor_of_lookup h map d child hl]
  | none =>
    simp only [Map.CopyInsertDescriptor, hl, Function.update_noteq hmap, Function.update_same]

/-- The captures leave every field of an object but its stack traces. -/
theorem setDetailed_fields (h : Heap) (object : Ref) (frames : List StackFrame) (o : Ref) :
    ((h.setDetailed object frames).objects o).properties = (h.objects o).properties ∧
    ((h.setDetailed object frames).objects o).extensible = (h.objects o).extensible := by
  by_cases ho : o = object
  · subst ho
    simp only [Heap.setDetailed, Heap.setObject, Function.update_same, and_self]
  · rw [setDetailed_objects_other h object frames o ho]
    exact ⟨rfl, rfl⟩

theorem setSimple_fields (h : Heap) (object : Ref) (text : String) (o : Ref) :
    ((h.setSimple object text).objects o).properties = (h.objects o).properties ∧
    ((h.setSimple object text).objects o).extensible = (h.objects o).extensible := by
  by_cases ho : o = object
  · subst ho
    simp only [Heap.setSimple, Heap.setObject, Function.update_same, and_self]
  · rw [setSimple_objects_other h object text o ho]
    exact ⟨rfl, rfl⟩

/-- What a call that passes the guard leaves of the target: its storage and
its extensible flag are those after the migration, and no map is allocated
after the insertion. -/
theorem ErrorCaptureStackTrace_passed_target (c : Collaborators) (args : BuiltinArguments)
    (isolate : Isolate) (object T : Ref)
    (hobj : JSObject.cast isolate.heap (args.atOrUndefined 1) = some object)
    (hT : globalObjectRedirect isolate.heap object = some T)
    (hg : stackIsExtensible c isolate.heap T = true) :
    (∀ o, ((ErrorCaptureStackTrace c args isolate).2.heap.objects o).properties =
        ((addStackAccessors T isolate).heap.objects o).properties ∧
      ((ErrorCaptureStackTrace c args isolate).2.heap.objects o).extensible =
        ((addStackAccessors T isolate).heap.objects o).extensible) ∧
    (ErrorCaptureStackTrace c args isolate).2.heap.next_map =
      (Map.CopyInsertDescriptor isolate.heap (isolate.heap.objects T).map
        stackAccessorDescriptor).2.next_map := by
  cases hd : c.CaptureDetailed (addStackAccessors T isolate).heap T with
  | error v =>
    rw [ErrorCaptureStackTrace_detailed_throws c args isolate object T v hobj hT hg hd]
    exact ⟨fun o => ⟨rfl, rfl⟩, rfl⟩
  | ok frames =>
    cases hs : c.CaptureSimple ((addStackAccessors T isolate).heap.setDetailed T frames) T
        (some (args.atOrUndefined 2)) with
    | error v =>
      rw [ErrorCaptureStackTrace_simple_throws c args isolate object T frames v hobj hT hg hd hs]
      exact ⟨fun o => setDetailed_fields _ _ _ o, rfl⟩
    | ok text =>
      rw [ErrorCaptureStackTrace_succeeds c args isolate object T frames text hobj hT hg hd hs]
      refine ⟨fun o => ?_, rfl⟩
      have h1 := setSimple_fields ((addStackAccessors T isolate).heap.setDetailed T frames) T
        text o
      have h2 := setDetailed_fields (addStackAccessors T isolate).heap T frames o
      exact ⟨h1.1.trans h2.1, h1.2.trans h2.2⟩

/-- A call that returned undefined passed the guard. -/
theorem ErrorCaptureStackTrace_ok_passed (c : Collaborators) (args : BuiltinArguments)
    (isolate : Isolate) (object T : Ref)
    (hobj : JSObject.cast isolate.heap (args.atOrUndefined 1) = some object)
    (hT : globalObjectRedirect isolate.heap object = some T)
    (hok : (ErrorCaptureStackTrace c args isolate).1 = .ok Value.undefined) :
    stackIsExtensible c isolate.heap T = true := by
  cases hg : stackIsExtensible c isolate.heap T with
  | true => rfl
  | false =>
    rw [ErrorCaptureStackTrace_rejected c args isolate object T hobj hT hg] at hok
    cases hok

/-! ## Theorems: the shape engine under `ErrorCaptureStackTrace` -/

/-- C14. Insertion is memoized. Inserting a descriptor into an allocated map a
second time returns the child the first insertion returned and allocates
nothing. In particular, when two calls of `ErrorCaptureStackTrace` pass the
guard for two objects `A` and `B` that share one allocated map, both objects
end on the same child map, the second call allocates no map, and on a heap
whose transition tables are sound the descriptors of that child are those of
the shared map plus the one "stack" accessor descriptor. -/
theorem shape_insertion_memoized (c : Collaborators) (args1 args2 : BuiltinArguments)
    (isolate : Isolate) (o1 A o2 B : Ref)
    (hobj1 : JSObject.cast isolate.heap (args1.atOrUndefined 1) = some o1)
    (hT1 : globalObjectRedirect isolate.heap o1 = some A)
    (hg1 : stackIsExtensible c isolate.heap A = true)
    (hobj2 : JSObject.cast (ErrorCaptureStackTrace c args1 isolate).2.heap
      (args2.atOrUndefined 1) = some o2)
    (hT2 : globalObjectRedirect (ErrorCaptureStackTrace c args1 isolate).2.heap o2 = some B)
    (hg2 : stackIsExtensible c (ErrorCaptureStackTrace c args1 isolate).2.heap B = true)
    (hAB : A ≠ B)
    (hshare : (isolate.heap.objects A).map = (isolate.heap.objects B).map)
    (halloc : (isolate.heap.objects A).map < isolate.heap.next_map)
    (hsound : isolate.heap.TransitionsSound) :
    (∀ (h : Heap) (map : MapRef) (d : Descriptor), map < h.next_map →
      Map.CopyInsertDescriptor (Map.CopyInsertDescriptor h map d).2 map d =
        ((Map.CopyInsertDescriptor h map d).1, (Map.CopyInsertDescriptor h map d).2)) ∧
    ((ErrorCaptureStackTrace c args2 (ErrorCaptureStackTrace c args1 isolate).2).2.heap.objects
        A).map =
      ((ErrorCaptureStackTrace c args2 (ErrorCaptureStackTrace c args1 isolate).2).2.heap.objects
        B).map ∧
    ((ErrorCaptureStackTrace c args2 (ErrorCaptureStackTrace c args1 isolate).2).2.heap.objects
        A).map =
      (Map.CopyInsertDescriptor isolate.heap (isolate.heap.objects A).map
        stackAccessorDescriptor).1 ∧
    ((ErrorCaptureStackTrace c args2 (ErrorCaptureStackTrace c args1 isolate).2).2.heap.mapOf
        A).descriptors =
      (isolate.heap.mapOf A).descriptors ++ [stackAccessorDescriptor] ∧
    (ErrorCaptureStackTrace c args2 (ErrorCaptureStackTrace c args1 isolate).2).2.heap.next_map =
      (ErrorCaptureStackTrace c args1 isolate).2.heap.next_map := by
  have hengine : ∀ (h : Heap) (map : MapRef) (d : Descriptor), map < h.next_map →
      Map.CopyInsertDescriptor (Map.CopyInsertDescriptor h map d).2 map d =
        ((Map.CopyInsertDescriptor h map d).1, (Map.CopyInsertDescriptor h map d).2) := by
    intro h map d hlt
    exact CopyInsertDescriptor_of_lookup _ map d _
      (CopyInsertDescriptor_lookup_after h map d (Nat.ne_of_lt hlt))
  have f1 := ErrorCaptureStackTrace_passed_frame c args1 isolate o1 A hobj1 hT1 hg1
  have f2 := ErrorCaptureStackTrace_passed_frame c args2 (ErrorCaptureStackTrace c args1 isolate).2
    o2 B hobj2 hT2 hg2
  have t2 := ErrorCaptureStackTrace_passed_target c args2
    (ErrorCaptureStackTrace c args1 isolate).2 o2 B hobj2 hT2 hg2
  have hB1 : ((ErrorCaptureStackTrace c args1 isolate).2.heap.objects B).map =
      (isolate.heap.objects A).map := by
    rw [f1.1 B (fun h => hAB h.symm), hshare]
  have hlook : (((ErrorCaptureStackTrace c args1 isolate).2.heap.maps
      ((ErrorCaptureStackTrace c args1 isolate).2.heap.objects B).map).transitions.lookup
        stackAccessorDescriptor) =
      some (Map.CopyInsertDescriptor isolate.heap (isolate.heap.objects A).map
        stackAccessorDescriptor).1 := by
    rw [hB1, f1.2.1]
    exact CopyInsertDescriptor_lookup_after _ _ _ (Nat.ne_of_lt halloc)
  have hsecond := CopyInsertDescriptor_of_lookup (ErrorCaptureStackTrace c args1 isolate).2.heap
    ((ErrorCaptureStackTrace c args1 isolate).2.heap.objects B).map stackAccessorDescriptor _ hlook
  rw [hsecond] at f2 t2
  simp only at f2 t2
  have hA2 : ((ErrorCaptureStackTrace c args2
      (ErrorCaptureStackTrace c args1 isolate).2).2.heap.objects A).map =
      (Map.CopyInsertDescriptor isolate.heap (isolate.heap.objects A).map
        stackAccessorDescriptor).1 := by
    rw [f2.1 A hAB, f1.2.2]
  refine ⟨hengine, ?_, hA2, ?_, t2.2⟩
  · rw [hA2, f2.2.2]
  · unfold Heap.mapOf
    rw [hA2, f2.2.1, f1.2.1]
    exact CopyInsertDescriptor_descriptors isolate.heap (isolate.heap.objects A).map
      stackAccessorDescriptor hsound

/-- Witness of C14: after the calls on the plain objects 3 and 4, which share
map 0, both are on map 1 and no map was allocated at 2. -/
theorem shape_insertion_memoized_witness :
    ((ErrorCaptureStackTrace (readingCollaborators Value.undefined Value.undefined)
      (argumentsOn 4)
      (ErrorCaptureStackTrace (readingCollaborators Value.undefined Value.undefined)
        (argumentsOn 3) plainIsolate).2).2.heap.objects 3).map =
    ((ErrorCaptureStackTrace (readingCollaborators Value.undefined Value.undefined)
      (argumentsOn 4)
      (ErrorCaptureStackTrace (readingCollaborators Value.undefined Value.undefined)
        (argumentsOn 3) plainIsolate).2).2.heap.objects 4).map ∧
    (ErrorCaptureStackTrace (readingCollaborators Value.undefined Value.undefined)
      (argumentsOn 4)
      (ErrorCaptureStackTrace (readingCollaborators Value.undefined Value.undefined)
        (argumentsOn 3) plainIsolate).2).2.heap.next_map = 2 :=
  ⟨(shape_insertion_memoized (readingCollaborators Value.undefined Value.undefined)
      (argumentsOn 3) (argumentsOn 4) plainIsolate 3 3 4 4 rfl rfl rfl rfl rfl rfl
      (by decide) rfl (by decide) plainHeap_TransitionsSound).2.1,
   (shape_insertion_memoized (readingCollaborators Value.undefined Value.undefined)
      (argumentsOn 3) (argumentsOn 4) plainIsolate 3 3 4 4 rfl rfl rfl rfl rfl rfl
      (by decide) rfl (by decide) plainHeap_TransitionsSound).2.2.2.2.trans rfl⟩

/-! ### Own properties across a migration -/

theorem lastIndexOfKey_lt (ds : List Descriptor) (key : String) (i : Nat)
    (h : lastIndexOfKey ds key = some i) : i < ds.length := by
  induction ds generalizing i with
  | nil => simp [lastIndexOfKey] at h
  | cons x rest ih =>
    simp only [lastIndexOfKey] at h
    cases hr : lastIndexOfKey rest key with
    | some j =>
      rw [hr] at h
      simp only [Option.some.injEq] at h
      have := ih j hr
      simp only [List.length_cons]
      omega
    | none =>
      rw [hr] at h
      simp only at h
      by_cases hk : x.key = key
      · rw [if_pos hk] at h
        simp only [Option.some.injEq] at h
        simp only [List.length_cons]
        omega
      · rw [if_neg hk] at h
        cases h

theorem lastIndexOfKey_append_other (ds : List Descriptor) (d : Descriptor) (key : String)
    (hk : d.key ≠ key) : lastIndexOfKey (ds ++ [d]) key = lastIndexOfKey ds key := by
  induction ds with
  | nil => simp [lastIndexOfKey, hk]
  | cons x rest ih =>
    simp only [List.cons_append, lastIndexOfKey, List.append_eq, ih]

theorem getD_append_replicate (l : List Value) (k i : Nat) :
    (l ++ List.replicate k Value.undefined).getD i Value.undefined =
      l.getD i Value.undefined := by
  rw [List.getD_eq_getElem?_getD, List.getD_eq_getElem?_getD]
  by_cases hi : i < l.length
  · rw [List.getElem?_append_left hi]
  · have hle : l.length ≤ i := Nat.le_of_not_lt hi
    rw [List.getElem?_append_right hle, List.getElem?_eq_none hle]
    by_cases hk : i - l.length < k
    · rw [List.getElem?_replicate, if_pos hk]
      rfl
    · rw [List.getElem?_replicate, if_neg hk]

/-- The own property at a key is read off the descriptors of the map and the
slots of the storage. -/
theorem GetOwnProperty_congr (h h' : Heap) (o o' : Ref) (key : String)
    (hd : (h.mapOf o).descriptors = (h'.mapOf o').descriptors)
    (hp : ∀ i, (h.objects o).properties.getD i Value.undefined =
      (h'.objects o').properties.getD i Value.undefined) :
    h.GetOwnProperty o key = h'.GetOwnProperty o' key := by
  simp only [Heap.GetOwnProperty, hd, hp]

/-- Appending a descriptor for another key and padding the storage leaves the
own property at a key. -/
theorem GetOwnProperty_extended (h h' : Heap) (o : Ref) (d : Descriptor) (key : String) (k : Nat)
    (hd : (h'.mapOf o).descriptors = (h.mapOf o).descriptors ++ [d])
    (hp : (h'.objects o).properties =
      (h.objects o).properties ++ List.replicate k Value.undefined)
    (hk : d.key ≠ key) :
    h'.GetOwnProperty o key = h.GetOwnProperty o key := by
  simp only [Heap.GetOwnProperty, hd, hp, lastIndexOfKey_append_other _ d key hk,
    getD_append_replicate]
  cases hl : lastIndexOfKey (h.mapOf o).descriptors key with
  | none => rfl
  | some i =>
    simp only
    rw [List.getElem?_append_left (lastIndexOfKey_lt _ key i hl)]

/-- The storage of the target after the accessor was added: the values it
held, then undefined in the new slots. -/
theorem addStackAccessors_properties (T : Ref) (isolate : Isolate) :
    ∃ k, ((addStackAccessors T isolate).heap.objects T).properties =
      (isolate.heap.objects T).properties ++ List.replicate k Value.undefined := by
  rw [addStackAccessors_heap]
  simp only [JSObject.MigrateToMap, Heap.setObject, Function.update_same,
    CopyInsertDescriptor_objects]
  exact ⟨_, rfl⟩

/-- C15. The migration `ErrorCaptureStackTrace` performs leaves what other
objects show. After a call that returned undefined for the target `A`: every
other object `B` has the record it had, so its map reference, its storage and
its stack traces; if `B` was on the map `A` was on, an allocated map, it is
still on it, that map has the descriptors it had and `B` has the own
properties it had; the storage of `A` holds the values it held, followed by
undefined slots; and on a heap whose transition tables are sound `A` has at
every key other than "stack" the own property it had. -/
theorem migration_leaves_other_objects (c : Collaborators) (args : BuiltinArguments)
    (isolate : Isolate) (object A : Ref)
    (hobj : JSObject.cast isolate.heap (args.atOrUndefined 1) = some object)
    (hT : globalObjectRedirect isolate.heap object = some A)
    (hok : (ErrorCaptureStackTrace c args isolate).1 = .ok Value.undefined) :
    (∀ B, B ≠ A →
      (ErrorCaptureStackTrace c args isolate).2.heap.objects B = isolate.heap.objects B) ∧
    (∀ B, B ≠ A → (isolate.heap.objects B).map = (isolate.heap.objects A).map →
      (isolate.heap.objects A).map < isolate.heap.next_map →
      ((ErrorCaptureStackTrace c args isolate).2.heap.objects B).map =
        (isolate.heap.objects A).map ∧
      ((ErrorCaptureStackTrace c args isolate).2.heap.mapOf B).descriptors =
        (isolate.heap.mapOf B).descriptors ∧
      ∀ key, (ErrorCaptureStackTrace c args isolate).2.heap.GetOwnProperty B key =
        isolate.heap.GetOwnProperty B key) ∧
    (∃ k, ((ErrorCaptureStackTrace c args isolate).2.heap.objects A).properties =
      (isolate.heap.objects A).properties ++ List.replicate k Value.undefined) ∧
    (isolate.heap.TransitionsSound → ∀ key, key ≠ "stack" →
      (ErrorCaptureStackTrace c args isolate).2.heap.GetOwnProperty A key =
        isolate.heap.GetOwnProperty A key) := by
  have hg := ErrorCaptureStackTrace_ok_passed c args isolate object A hobj hT hok
  have f := ErrorCaptureStackTrace_passed_frame c args isolate object A hobj hT hg
  have t := ErrorCaptureStackTrace_passed_target c args isolate object A hobj hT hg
  have hprops : ∃ k, ((ErrorCaptureStackTrace c args isolate).2.heap.objects A).properties =
      (isolate.heap.objects A).properties ++ List.replicate k Value.undefined := by
    rcases addStackAccessors_properties A isolate with ⟨k, hk⟩
    exact ⟨k, (t.1 A).1.trans hk⟩
  refine ⟨f.1, ?_, hprops, ?_⟩
  · intro B hB hshare halloc
    have hdesc : ((ErrorCaptureStackTrace c args isolate).2.heap.mapOf B).descriptors =
        (isolate.heap.mapOf B).descriptors := by
      unfold Heap.mapOf
      rw [f.1 B hB, f.2.1, hshare]
      exact CopyInsertDescriptor_parent_descriptors _ _ _ (Nat.ne_of_lt halloc)
    refine ⟨?_, hdesc, ?_⟩
    · rw [f.1 B hB, hshare]
    · intro key
      apply GetOwnProperty_congr _ _ _ _ _ hdesc
      intro i
      rw [f.1 B hB]
  · intro hsound key hkey
    rcases hprops with ⟨k, hk⟩
    have hdesc : ((ErrorCaptureStackTrace c args isolate).2.heap.mapOf A).descriptors =
        (isolate.heap.mapOf A).descriptors ++ [stackAccessorDescriptor] := by
      unfold Heap.mapOf
      rw [f.2.2, f.2.1]
      exact CopyInsertDescriptor_descriptors isolate.heap (isolate.heap.objects A).map
        stackAccessorDescriptor hsound
    exact GetOwnProperty_extended isolate.heap _ A stackAccessorDescriptor key k hdesc hk
      (fun h => hkey h.symm)

/-- Witness of C15: after the call on the plain object 3, the object 4, which
shared map 0 with it, has the record it had, and map 0 still has no
descriptor. -/
theorem migration_leaves_other_objects_witness :
    (ErrorCaptureStackTrace (readingCollaborators Value.undefined Value.undefined)
      (argumentsOn 3) plainIsolate).2.heap.objects 4 = plainObject ∧
    ((ErrorCaptureStackTrace (readingCollaborators Value.undefined Value.undefined)
      (argumentsOn 3) plainIsolate).2.heap.mapOf 4).descriptors = [] :=
  ⟨(migration_leaves_other_objects (readingCollaborators Value.undefined Value.undefined)
      (argumentsOn 3) plainIsolate 3 3 rfl rfl rfl).1 4 (by decide),
   ((migration_leaves_other_objects (readingCollaborators Value.undefined Value.undefined)
      (argumentsOn 3) plainIsolate 3 3 rfl rfl rfl).2.1 4 (by decide) rfl (by decide)).2.1⟩

/-! ## Theorems: a second call of `ErrorCaptureStackTrace` -/

/-- Adding the accessor leaves the extensible flag of the target. -/
theorem addStackAccessors_extensible (T : Ref) (isolate : Isolate) :
    ((addStackAccessors T isolate).heap.objects T).extensible =
      (isolate.heap.objects T).extensible := by
  rw [addStackAccessors_heap]
  simp only [JSObject.MigrateToMap, Heap.setObject, Function.update_same,
    CopyInsertDescriptor_objects]

/-- An object whose map ends in the "stack" accessor descriptor owns "stack"
with that descriptor. -/
theorem GetOwnProperty_stack_of_descriptors (h : Heap) (T : Ref) (ds : List Descriptor)
    (hd : (h.mapOf T).descriptors = ds ++ [stackAccessorDescriptor]) :
    ∃ v, h.GetOwnProperty T "stack" = some (stackAccessorDescriptor, v) := by
  have hk : lastIndexOfKey (ds ++ [stackAccessorDescriptor]) "stack" = some ds.length :=
    lastIndexOfKey_append_key ds stackAccessorDescriptor
  have hget : (ds ++ [stackAccessorDescriptor])[ds.length]? = some stackAccessorDescriptor := by
    simp
  refine ⟨(h.objects T).properties.getD ds.length Value.undefined, ?_⟩
  simp only [Heap.GetOwnProperty, hd, hk, hget, Option.map_some']

/-- C16. `ErrorCaptureStackTrace` does not guard against a second call on the
same object. After a first call that returned undefined for the target `T`
(on a heap whose transition tables are sound), `T` owns "stack" with the
accessor descriptor and is still extensible; when the lookup of the second
call reports that own property as the shape has it, the second call passes the
guard, does not fail with a type error, and records a second insertion of the
"stack" accessor descriptor into the map `T` is on, a second migration of `T`
and a second detailed capture, followed by the simple capture unless the
detailed one threw. -/
theorem ErrorCaptureStackTrace_twice (c : Collaborators) (args : BuiltinArguments)
    (isolate : Isolate) (object object2 T : Ref)
    (hobj : JSObject.cast isolate.heap (args.atOrUndefined 1) = some object)
    (hT : globalObjectRedirect isolate.heap object = some T)
    (hok : (ErrorCaptureStackTrace c args isolate).1 = .ok Value.undefined)
    (hobj2 : JSObject.cast (ErrorCaptureStackTrace c args isolate).2.heap
      (args.atOrUndefined 1) = some object2)
    (hT2 : globalObjectRedirect (ErrorCaptureStackTrace c args isolate).2.heap object2 = some T)
    (hlookup : c.GetOwnPropertyDescriptor (ErrorCaptureStackTrace c args isolate).2.heap T
        "stack" =
      (ErrorCaptureStackTrace c args isolate).2.heap.ownPropertyDescriptor T "stack")
    (hsound : isolate.heap.TransitionsSound) :
    (∃ v, (ErrorCaptureStackTrace c args isolate).2.heap.GetOwnProperty T "stack" =
      some (stackAccessorDescriptor, v)) ∧
    stackAccessorDescriptor.key = "stack" ∧
    JSObject.IsExtensible (ErrorCaptureStackTrace c args isolate).2.heap T = true ∧
    stackIsExtensible c (ErrorCaptureStackTrace c args isolate).2.heap T = true ∧
    (∀ t a, (ErrorCaptureStackTrace c args (ErrorCaptureStackTrace c args isolate).2).1 ≠
      .error (.NewTypeError t a)) ∧
    (∃ rest, (ErrorCaptureStackTrace c args (ErrorCaptureStackTrace c args isolate).2).2.calls =
      (ErrorCaptureStackTrace c args isolate).2.calls ++
        Call.CopyInsertDescriptor
          ((ErrorCaptureStackTrace c args isolate).2.heap.objects T).map
          stackAccessorDescriptor ::
        Call.MigrateToMap T (Map.CopyInsertDescriptor (ErrorCaptureStackTrace c args isolate).2.heap
          ((ErrorCaptureStackTrace c args isolate).2.heap.objects T).map
          stackAccessorDescriptor).1 ::
        Call.CaptureAndSetDetailedStackTrace T :: rest ∧
      (rest = [] ∨ rest = [.CaptureAndSetSimpleStackTrace T (some (args.atOrUndefined 2))])) := by
  have hg := ErrorCaptureStackTrace_ok_passed c args isolate object T hobj hT hok
  have f := ErrorCaptureStackTrace_passed_frame c args isolate object T hobj hT hg
  have t := ErrorCaptureStackTrace_passed_target c args isolate object T hobj hT hg
  have hext0 : JSObject.IsExtensible isolate.heap T = true := by
    cases he : JSObject.IsExtensible isolate.heap T with
    | true => rfl
    | false =>
      have := (stackIsExtensible_eq_false_iff c isolate.heap T).mpr (Or.inl he)
      rw [hg] at this
      cases this
  have hext : JSObject.IsExtensible (ErrorCaptureStackTrace c args isolate).2.heap T = true := by
    unfold JSObject.IsExtensible
    rw [(t.1 T).2, addStackAccessors_extensible]
    exact hext0
  have hdesc : ((ErrorCaptureStackTrace c args isolate).2.heap.mapOf T).descriptors =
      (isolate.heap.mapOf T).descriptors ++ [stackAccessorDescriptor] := by
    unfold Heap.mapOf
    rw [f.2.2, f.2.1]
    exact CopyInsertDescriptor_descriptors isolate.heap (isolate.heap.objects T).map
      stackAccessorDescriptor hsound
  have hown := GetOwnProperty_stack_of_descriptors _ T _ hdesc
  have hg2 : stackIsExtensible c (ErrorCaptureStackTrace c args isolate).2.heap T = true := by
    rcases hown with ⟨v, hv⟩
    unfold stackIsExtensible
    rw [hlookup, hext]
    simp only [Heap.ownPropertyDescriptor, hv]
    rfl
  refine ⟨hown, rfl, hext, hg2, ?_, ?_⟩
  · intro t' a hc
    rcases ErrorCaptureStackTrace_passed_outcome c args _ object2 T hobj2 hT2 hg2 with
      h | ⟨v, h⟩
    · rw [h] at hc
      cases hc
    · rw [h] at hc
      cases hc
  · exact ErrorCaptureStackTrace_passed_calls c args _ object2 T hobj2 hT2 hg2

/-- Witness of C16: with a lookup that reads the shape, a second call on the
plain object 3 returns undefined as the first did and inserts into map 1, on
which the first call left the object. -/
theorem ErrorCaptureStackTrace_twice_witness :
    (ErrorCaptureStackTrace (shapeLookup (readingCollaborators Value.undefined Value.undefined))
      (argumentsOn 3)
      (ErrorCaptureStackTrace
        (shapeLookup (readingCollaborators Value.undefined Value.undefined))
        (argumentsOn 3) plainIsolate).2).1 = .ok Value.undefined ∧
    stackIsExtensible (shapeLookup (readingCollaborators Value.undefined Value.undefined))
      (ErrorCaptureStackTrace
        (shapeLookup (readingCollaborators Value.undefined Value.undefined))
        (argumentsOn 3) plainIsolate).2.heap 3 = true ∧
    (ErrorCaptureStackTrace (shapeLookup (readingCollaborators Value.undefined Value.undefined))
      (argumentsOn 3)
      (ErrorCaptureStackTrace
        (shapeLookup (readingCollaborators Value.undefined Value.undefined))
        (argumentsOn 3) plainIsolate).2).2.calls =
      [.CopyInsertDescriptor 0 stackAccessorDescriptor, .MigrateToMap 3 1,
       .CaptureAndSetDetailedStackTrace 3,
       .CaptureAndSetSimpleStackTrace 3 (some Value.undefined),
       .CopyInsertDescriptor 1 stackAccessorDescriptor, .MigrateToMap 3 2,
       .CaptureAndSetDetailedStackTrace 3,
       .CaptureAndSetSimpleStackTrace 3 (some Value.undefined)] ∧
    ((ErrorCaptureStackTrace (shapeLookup (readingCollaborators Value.undefined Value.undefined))
      (argumentsOn 3)
      (ErrorCaptureStackTrace
        (shapeLookup (readingCollaborators Value.undefined Value.undefined))
        (argumentsOn 3) plainIsolate).2).2.heap.mapOf 3).descriptors =
      [stackAccessorDescriptor, stackAccessorDescriptor] :=
  ⟨rfl,
   (ErrorCaptureStackTrace_twice
      (shapeLookup (readingCollaborators Value.undefined Value.undefined))
      (argumentsOn 3) plainIsolate 3 3 3 rfl rfl rfl rfl rfl rfl
      plainHeap_TransitionsSound).2.2.2.1,
   rfl, rfl⟩

end V8
